import Mathlib

/-!
Verification of the session engine of the bgpd BGP-4 speaker
(src/usr.sbin/bgpd/session.c), shallow embedding in Lean 4.

Conventions used throughout this development:
* machine integers are modelled as `Nat`; the C code at hand never relies on
  overflow in the places embedded here (lengths are < 2^16, hold times
  < 2^16, counters only grow);
* wire bytes are `Nat` values, constrained to `< 256` by hypotheses where a
  claim needs it;
* address family identifiers (AIDs) are `Fin 7`, matching the internal
  enumeration (0 = AID_UNSPEC, 1 = AID_INET, 2 = AID_INET6, ...,
  AID_MIN = 1, AID_MAX = 7); loops `for (i = AID_MIN; i < AID_MAX; i++)`
  become pointwise definitions guarded by `1 ≤ aid.val` or folds over
  `aidRange = [1, ..., 6]`;
* the side effects of the engine (messages queued to the peer, imsgs to the
  RDE or the parent) are returned as an explicit `List Effect`;
* memory-allocation failures (`calloc`/`ibuf_open` returning NULL, which in
  the C source re-enter the FSM with EVNT_CON_FATAL) are not modelled:
  message construction is assumed to succeed.  The one place where the
  failure path matters for a claim (session_notification not recording an
  errcode when the message could not be built) keeps an explicit `sendOk`
  parameter.

Numeric constants are taken from the source where it shows them; the values
of constants defined in the missing headers (bgpd.h, session.h) are modelled
from the specification, which states them (19-byte header, MAX_PKTSIZE 4096,
per-type minimum lengths, INTERVAL_HOLD_INITIAL 240 s, initial idle-hold
30 s, RFC-assigned error codes and subcodes).  MAX_IDLE_HOLD, whose value
appears in neither the source under src/ nor the specification, is kept as
an explicit parameter `maxIdleHold` of the functions that use it.
-/

namespace BgpdSession

/-- Size of the fixed BGP message header (marker + length + type). -/
def MSGSIZE_HEADER : Nat := 19

/-- Size of the all-ones marker at the start of every message. -/
def MSGSIZE_HEADER_MARKER : Nat := 16

/-- Modelled from the spec: maximum classical BGP message size (bgpd.h is not
in the repository). -/
def MAX_PKTSIZE : Nat := 4096

/-- Modelled from the spec: minimum total length of an OPEN message. -/
def MSGSIZE_OPEN_MIN : Nat := 29

/-- Modelled from the spec: minimum total length of an UPDATE message. -/
def MSGSIZE_UPDATE_MIN : Nat := 23

/-- Modelled from the spec: minimum total length of a NOTIFICATION message. -/
def MSGSIZE_NOTIFICATION_MIN : Nat := 21

/-- Modelled from the spec: exact length of a KEEPALIVE message. -/
def MSGSIZE_KEEPALIVE : Nat := 19

/-- Modelled from the spec: minimum total length of a ROUTE-REFRESH message. -/
def MSGSIZE_RREFRESH_MIN : Nat := 23

/-- Modelled from the spec: initial (large) hold time used until the first
KEEPALIVE, 240 seconds. -/
def INTERVAL_HOLD_INITIAL : Nat := 240

/-- Modelled from the spec: initial idle-hold interval, 30 seconds. -/
def INTERVAL_IDLE_HOLD_INITIAL : Nat := 30

/-- The BGP protocol version the engine speaks. -/
def BGP_VERSION : Nat := 4

/-- Wire code of the OPEN message type. -/
def OPEN : Nat := 1

/-- Wire code of the UPDATE message type. -/
def UPDATE : Nat := 2

/-- Wire code of the NOTIFICATION message type. -/
def NOTIFICATION : Nat := 3

/-- Wire code of the KEEPALIVE message type. -/
def KEEPALIVE : Nat := 4

/-- Wire code of the ROUTE-REFRESH message type. -/
def RREFRESH : Nat := 5

/-- Modelled from the spec: RFC-assigned error code for header errors. -/
def ERR_HEADER : Nat := 1

/-- Modelled from the spec: RFC-assigned error code for OPEN errors. -/
def ERR_OPEN : Nat := 2

/-- Modelled from the spec: RFC-assigned error code for hold-timer expiry. -/
def ERR_HOLDTIMEREXPIRED : Nat := 4

/-- Modelled from the spec: RFC-assigned error code for FSM errors. -/
def ERR_FSM : Nat := 5

/-- Modelled from the spec: RFC-assigned error code for cease. -/
def ERR_CEASE : Nat := 6

/-- Modelled from the spec: RFC-assigned error code for send-hold expiry. -/
def ERR_SENDHOLDTIMEREXPIRED : Nat := 8

/-- Header-error subcode: connection not synchronized (bad marker). -/
def ERR_HDR_SYNC : Nat := 1

/-- Header-error subcode: bad message length. -/
def ERR_HDR_LEN : Nat := 2

/-- Header-error subcode: bad message type. -/
def ERR_HDR_TYPE : Nat := 3

/-- OPEN-error subcode: unsupported version number. -/
def ERR_OPEN_VERSION : Nat := 1

/-- OPEN-error subcode: bad peer AS. -/
def ERR_OPEN_AS : Nat := 2

/-- OPEN-error subcode: bad BGP identifier. -/
def ERR_OPEN_BGPID : Nat := 3

/-- OPEN-error subcode: unsupported optional parameter. -/
def ERR_OPEN_OPT : Nat := 4

/-- OPEN-error subcode: unacceptable hold time. -/
def ERR_OPEN_HOLDTIME : Nat := 6

/-- OPEN-error subcode: role mismatch (RFC 9234). -/
def ERR_OPEN_ROLE : Nat := 8

/-- FSM-error subcode: unexpected message in OpenSent. -/
def ERR_FSM_UNEX_OPENSENT : Nat := 1

/-- FSM-error subcode: unexpected message in OpenConfirm. -/
def ERR_FSM_UNEX_OPENCONFIRM : Nat := 2

/-- FSM-error subcode: unexpected message in Established. -/
def ERR_FSM_UNEX_ESTABLISHED : Nat := 3

/-- Cease subcode: administrative shutdown. -/
def ERR_CEASE_ADMIN_DOWN : Nat := 2

/-- Cease subcode: administrative reset. -/
def ERR_CEASE_ADMIN_RESET : Nat := 4

/-- A notification as emitted on a parse failure: error code, subcode and the
data bytes attached to it. -/
structure Notif where
  errcode : Nat
  subcode : Nat
  data : List Nat
deriving DecidableEq, Repr

/-- Result of parse_header: on success the ret value is 0 and (len, ty) hold
the parsed length and type; on failure ret is -1, a notification was sent and
the FSM event EVNT_CON_FATAL was injected (conFatal = true). -/
structure HdrResult where
  ret : Int
  len : Nat
  ty : Nat
  notif : Option Notif
  conFatal : Bool
deriving DecidableEq, Repr

/-- Helper building the failure result of parse_header: a notification is
sent, EVNT_CON_FATAL is injected and -1 is returned. -/
def hdrFail (len ty : Nat) (n : Notif) : HdrResult :=
  { ret := -1, len := len, ty := ty, notif := some n, conFatal := true }

/-- Helper building the success result of parse_header. -/
def hdrOk (len ty : Nat) : HdrResult :=
  { ret := 0, len := len, ty := ty, notif := none, conFatal := false }

/-- Core of parse_header after the marker check: the length and type checks
on the 16-bit length `len`, type octet `ty` and the two raw length bytes
`b0 b1`.  The length is first checked against the global bounds, then the
per-type minimum; an unknown type yields a type error. -/
def parse_header_checks (len ty b0 b1 : Nat) : HdrResult :=
  if len < MSGSIZE_HEADER ∨ len > MAX_PKTSIZE then
    hdrFail len ty ⟨ERR_HEADER, ERR_HDR_LEN, [b0, b1]⟩
  else if ty = OPEN then
    if len < MSGSIZE_OPEN_MIN then
      hdrFail len ty ⟨ERR_HEADER, ERR_HDR_LEN, [b0, b1]⟩
    else hdrOk len ty
  else if ty = NOTIFICATION then
    if len < MSGSIZE_NOTIFICATION_MIN then
      hdrFail len ty ⟨ERR_HEADER, ERR_HDR_LEN, [b0, b1]⟩
    else hdrOk len ty
  else if ty = UPDATE then
    if len < MSGSIZE_UPDATE_MIN then
      hdrFail len ty ⟨ERR_HEADER, ERR_HDR_LEN, [b0, b1]⟩
    else hdrOk len ty
  else if ty = KEEPALIVE then
    if len ≠ MSGSIZE_KEEPALIVE then
      hdrFail len ty ⟨ERR_HEADER, ERR_HDR_LEN, [b0, b1]⟩
    else hdrOk len ty
  else if ty = RREFRESH then
    if len < MSGSIZE_RREFRESH_MIN then
      hdrFail len ty ⟨ERR_HEADER, ERR_HDR_LEN, [b0, b1]⟩
    else hdrOk len ty
  else
    hdrFail len ty ⟨ERR_HEADER, ERR_HDR_TYPE, [ty]⟩

/-- Embedding of parse_header (session.c).  The argument is the 19-byte
header; the caller guarantees exactly 19 bytes.  The marker is compared
first (memcmp against 16 bytes of 0xFF); then the 16-bit big-endian length
field and the type octet are read and checked.  Every failure sends a
NOTIFICATION and injects EVNT_CON_FATAL. -/
def parse_header (data : List Nat) : HdrResult :=
  if data.take MSGSIZE_HEADER_MARKER ≠ List.replicate MSGSIZE_HEADER_MARKER 255 then
    hdrFail 0 0 ⟨ERR_HEADER, ERR_HDR_SYNC, []⟩
  else
    parse_header_checks (256 * data.getD 16 0 + data.getD 17 0)
      (data.getD 18 0) (data.getD 16 0) (data.getD 17 0)

/-- Bad-length cases of the header checks: any length below 19, above
MAX_PKTSIZE or below the per-type minimum produces NOTIFICATION (HEADER,
LEN) with the two raw length bytes as data. -/
lemma parse_header_checks_badlen (len ty b0 b1 : Nat)
    (hbad : len < MSGSIZE_HEADER ∨ MAX_PKTSIZE < len ∨
      (ty = OPEN ∧ len < MSGSIZE_OPEN_MIN) ∨
      (ty = UPDATE ∧ len < MSGSIZE_UPDATE_MIN) ∨
      (ty = NOTIFICATION ∧ len < MSGSIZE_NOTIFICATION_MIN) ∨
      (ty = RREFRESH ∧ len < MSGSIZE_RREFRESH_MIN) ∨
      (ty = KEEPALIVE ∧ len ≠ MSGSIZE_KEEPALIVE)) :
    parse_header_checks len ty b0 b1 =
      hdrFail len ty ⟨ERR_HEADER, ERR_HDR_LEN, [b0, b1]⟩ := by
  simp only [MSGSIZE_HEADER, MAX_PKTSIZE, MSGSIZE_OPEN_MIN, MSGSIZE_UPDATE_MIN,
    MSGSIZE_NOTIFICATION_MIN, MSGSIZE_RREFRESH_MIN, MSGSIZE_KEEPALIVE,
    OPEN, UPDATE, NOTIFICATION, KEEPALIVE, RREFRESH] at hbad
  unfold parse_header_checks
  simp only [MSGSIZE_HEADER, MAX_PKTSIZE, MSGSIZE_OPEN_MIN, MSGSIZE_UPDATE_MIN,
    MSGSIZE_NOTIFICATION_MIN, MSGSIZE_RREFRESH_MIN, MSGSIZE_KEEPALIVE,
    OPEN, UPDATE, NOTIFICATION, KEEPALIVE, RREFRESH, hdrOk, hdrFail]
  split_ifs <;> first | rfl | (exfalso; omega)

/-- Bad-type case of the header checks: with the length inside the global
bounds, an unknown type octet produces NOTIFICATION (HEADER, TYPE) with the
type byte as data. -/
lemma parse_header_checks_badtype (len ty b0 b1 : Nat)
    (hlo : MSGSIZE_HEADER ≤ len) (hhi : len ≤ MAX_PKTSIZE)
    (h1 : ty ≠ OPEN) (h2 : ty ≠ UPDATE) (h3 : ty ≠ NOTIFICATION)
    (h4 : ty ≠ KEEPALIVE) (h5 : ty ≠ RREFRESH) :
    parse_header_checks len ty b0 b1 =
      hdrFail len ty ⟨ERR_HEADER, ERR_HDR_TYPE, [ty]⟩ := by
  simp only [MSGSIZE_HEADER, MAX_PKTSIZE, OPEN, UPDATE, NOTIFICATION,
    KEEPALIVE, RREFRESH] at hlo hhi h1 h2 h3 h4 h5
  unfold parse_header_checks
  simp only [MSGSIZE_HEADER, MAX_PKTSIZE, MSGSIZE_OPEN_MIN, MSGSIZE_UPDATE_MIN,
    MSGSIZE_NOTIFICATION_MIN, MSGSIZE_RREFRESH_MIN, MSGSIZE_KEEPALIVE,
    OPEN, UPDATE, NOTIFICATION, KEEPALIVE, RREFRESH, hdrOk, hdrFail]
  split_ifs <;> first | rfl | (exfalso; omega)

/-- Unfolding of parse_header when the marker is intact. -/
lemma parse_header_marker_ok (data : List Nat)
    (hm : data.take 16 = List.replicate 16 255) :
    parse_header data =
      parse_header_checks (256 * data.getD 16 0 + data.getD 17 0)
        (data.getD 18 0) (data.getD 16 0) (data.getD 17 0) := by
  simp only [parse_header, MSGSIZE_HEADER_MARKER]
  rw [if_neg (not_not_intro hm)]

/-- C1: for every 19-byte message header (bytes < 256): a header whose first
16 octets are not the all-0xFF marker fails with NOTIFICATION (HEADER, SYNC);
with a good marker, a 16-bit length below 19, above MAX_PKTSIZE = 4096 or
below the per-type minimum (OPEN 29, UPDATE 23, NOTIFICATION 21,
ROUTE-REFRESH 23, KEEPALIVE exactly 19) fails with NOTIFICATION (HEADER,
LEN) whose data is the raw length field in network byte order; a type octet
outside {1, 2, 3, 4, 5} (with the length in range) fails with NOTIFICATION
(HEADER, TYPE) whose data is the type byte; in every failure case the FSM
event EVNT_CON_FATAL is injected and parse_header returns failure (-1). -/
theorem c1_parse_header_errors (data : List Nat) (h19 : data.length = 19)
    (hbytes : ∀ b ∈ data, b < 256) :
    (data.take 16 ≠ List.replicate 16 255 →
      (parse_header data).ret = -1 ∧
      (parse_header data).notif = some ⟨ERR_HEADER, ERR_HDR_SYNC, []⟩ ∧
      (parse_header data).conFatal = true) ∧
    (data.take 16 = List.replicate 16 255 →
      (256 * data.getD 16 0 + data.getD 17 0 < 19 ∨
       4096 < 256 * data.getD 16 0 + data.getD 17 0 ∨
       (data.getD 18 0 = OPEN ∧ 256 * data.getD 16 0 + data.getD 17 0 < 29) ∨
       (data.getD 18 0 = UPDATE ∧ 256 * data.getD 16 0 + data.getD 17 0 < 23) ∨
       (data.getD 18 0 = NOTIFICATION ∧
         256 * data.getD 16 0 + data.getD 17 0 < 21) ∨
       (data.getD 18 0 = RREFRESH ∧
         256 * data.getD 16 0 + data.getD 17 0 < 23) ∨
       (data.getD 18 0 = KEEPALIVE ∧
         256 * data.getD 16 0 + data.getD 17 0 ≠ 19) →
      (parse_header data).ret = -1 ∧
      (parse_header data).notif =
        some ⟨ERR_HEADER, ERR_HDR_LEN, [data.getD 16 0, data.getD 17 0]⟩ ∧
      (parse_header data).conFatal = true)) ∧
    (data.take 16 = List.replicate 16 255 →
      19 ≤ 256 * data.getD 16 0 + data.getD 17 0 →
      256 * data.getD 16 0 + data.getD 17 0 ≤ 4096 →
      data.getD 18 0 ≠ OPEN → data.getD 18 0 ≠ UPDATE →
      data.getD 18 0 ≠ NOTIFICATION → data.getD 18 0 ≠ KEEPALIVE →
      data.getD 18 0 ≠ RREFRESH →
      (parse_header data).ret = -1 ∧
      (parse_header data).notif =
        some ⟨ERR_HEADER, ERR_HDR_TYPE, [data.getD 18 0]⟩ ∧
      (parse_header data).conFatal = true) := by
  refine ⟨?_, ?_, ?_⟩
  · intro hm
    have h : parse_header data = hdrFail 0 0 ⟨ERR_HEADER, ERR_HDR_SYNC, []⟩ := by
      simp only [parse_header, MSGSIZE_HEADER_MARKER]
      rw [if_pos hm]
    rw [h]
    exact ⟨rfl, rfl, rfl⟩
  · intro hm hbad
    rw [parse_header_marker_ok data hm,
      parse_header_checks_badlen _ _ _ _ (by
        simpa only [MSGSIZE_HEADER, MAX_PKTSIZE, MSGSIZE_OPEN_MIN,
          MSGSIZE_UPDATE_MIN, MSGSIZE_NOTIFICATION_MIN, MSGSIZE_RREFRESH_MIN,
          MSGSIZE_KEEPALIVE] using hbad)]
    exact ⟨rfl, rfl, rfl⟩
  · intro hm hlo hhi h1 h2 h3 h4 h5
    rw [parse_header_marker_ok data hm,
      parse_header_checks_badtype _ _ _ _ hlo hhi h1 h2 h3 h4 h5]
    exact ⟨rfl, rfl, rfl⟩

/-- Witness for c1_parse_header_errors: a concrete 19-byte header with a good
marker and total length 10 (below 19) is rejected with NOTIFICATION (HEADER,
LEN) carrying the raw bytes 0x00 0x0a, and a concrete header with a broken
marker is rejected with NOTIFICATION (HEADER, SYNC). -/
theorem c1_parse_header_errors_witness :
    (parse_header (List.replicate 16 255 ++ [0, 10, 9])).notif =
      some ⟨ERR_HEADER, ERR_HDR_LEN, [0, 10]⟩ ∧
    (parse_header (0 :: List.replicate 15 255 ++ [0, 19, 4])).notif =
      some ⟨ERR_HEADER, ERR_HDR_SYNC, []⟩ := by
  constructor
  · exact (((c1_parse_header_errors (List.replicate 16 255 ++ [0, 10, 9])
      (by decide) (by decide)).2.1 (by decide)) (by decide)).2.1
  · exact ((c1_parse_header_errors (0 :: List.replicate 15 255 ++ [0, 19, 4])
      (by decide) (by decide)).1 (by decide)).2.1

/-! Data model of the peer, its capabilities, timers and statistics. -/

/-- Modelled from the spec: per-AID graceful-restart flag bits
(PRESENT / RESTART / FORWARD / RESTARTING); bgpd.h is not in the
repository, so the concrete bit values are a modelling choice. -/
def CAPA_GR_PRESENT : Nat := 1

/-- Graceful-restart flag bit: the peer announced the restart flag. -/
def CAPA_GR_RESTART : Nat := 2

/-- Graceful-restart flag bit: forwarding state was preserved. -/
def CAPA_GR_FORWARD : Nat := 4

/-- Graceful-restart flag bit: this AID is currently restarting. -/
def CAPA_GR_RESTARTING : Nat := 8

/-- ADD-PATH flag bit: receive. -/
def CAPA_AP_RECV : Nat := 1

/-- ADD-PATH flag bit: send. -/
def CAPA_AP_SEND : Nat := 2

/-- Capability code: multiprotocol extensions (RFC 4760). -/
def CAPA_MP : Nat := 1

/-- Capability code: route refresh (RFC 2918). -/
def CAPA_REFRESH : Nat := 2

/-- Capability code: open policy role (RFC 9234). -/
def CAPA_ROLE : Nat := 9

/-- Capability code: graceful restart (RFC 4724). -/
def CAPA_RESTART : Nat := 64

/-- Capability code: 4-octet AS numbers (RFC 6793). -/
def CAPA_AS4BYTE : Nat := 65

/-- Capability code: ADD-PATH (RFC 7911). -/
def CAPA_ADD_PATH : Nat := 69

/-- Capability code: enhanced route refresh (RFC 7313). -/
def CAPA_ENHANCED_RR : Nat := 70

/-- Address family identifier: implicit IPv4 unicast. -/
def AID_INET : Fin 7 := 1

/-- Address family identifier: IPv6 unicast. -/
def AID_INET6 : Fin 7 := 2

/-- The loop range AID_MIN ≤ i < AID_MAX of the capability loops. -/
def aidRange : List (Fin 7) := [1, 2, 3, 4, 5, 6]

/-- Peering role of RFC 9234 (enum role of bgpd). -/
inductive Role where
  | roleNone
  | customer
  | provider
  | rs
  | rsClient
  | rolePeer
deriving DecidableEq, Repr

/-- The six FSM states plus the pre-initialization state None
(enum session_state). -/
inductive SessionState where
  | stateNone
  | idle
  | connect
  | active
  | openSent
  | openConfirm
  | established
deriving DecidableEq, Repr

/-- The FSM event enumeration (enum session_events).  EVNT_NONE is the
pseudo-event used when initializing a peer. -/
inductive SessionEvent where
  | evNone
  | start
  | stop
  | conOpen
  | conOpenFail
  | conClosed
  | conFatal
  | timerConnretry
  | timerHoldtime
  | timerSendHold
  | timerKeepalive
  | timerIdleHold
  | rcvdOpen
  | rcvdKeepalive
  | rcvdUpdate
  | rcvdNotification
deriving DecidableEq, Repr

/-- The graceful-restart part of a capability set. -/
structure CapaGR where
  flags : Fin 7 → Nat
  timeout : Nat
  restart : Nat

/-- One capability set (struct capabilities): multiprotocol bitmap per AID,
the boolean capabilities, ADD-PATH flag bytes per AID, graceful restart and
the open-policy mode. -/
structure Capa where
  mp : Fin 7 → Bool
  refresh : Bool
  enhanced_rr : Bool
  as4byte : Bool
  add_path : Fin 7 → Nat
  grestart : CapaGR
  policy : Nat

/-- The all-zero capability set (memset to 0). -/
def zeroCapa : Capa :=
  { mp := fun _ => false, refresh := false, enhanced_rr := false,
    as4byte := false, add_path := fun _ => 0,
    grestart := { flags := fun _ => 0, timeout := 0, restart := 0 },
    policy := 0 }

/-- Per-peer timers.  `some v` means the timer is armed with interval `v`
seconds (timer_set), `none` that it is stopped (timer_stop).  Deadlines are
abstracted to the interval most recently set. -/
structure Timers where
  hold : Option Nat
  keepalive : Option Nat
  connectRetry : Option Nat
  sendHold : Option Nat
  idleHold : Option Nat
  idleHoldReset : Option Nat
  carpUndemote : Option Nat
  restartTimeout : Option Nat
deriving DecidableEq, Repr

/-- All timers stopped. -/
def noTimers : Timers :=
  { hold := none, keepalive := none, connectRetry := none, sendHold := none,
    idleHold := none, idleHoldReset := none, carpUndemote := none,
    restartTimeout := none }

/-- The statistics fields of the peer that the embedded operations touch. -/
structure Stats where
  last_sent_errcode : Nat
  last_sent_suberr : Nat
  last_rcvd_errcode : Nat
  last_rcvd_suberr : Nat
  msg_sent_notification : Nat
  last_reason : List Nat
deriving DecidableEq, Repr

/-- Statistics all zero. -/
def zeroStats : Stats :=
  { last_sent_errcode := 0, last_sent_suberr := 0, last_rcvd_errcode := 0,
    last_rcvd_suberr := 0, msg_sent_notification := 0, last_reason := [] }

/-- The static per-peer configuration fields used by the embedded
operations (struct peer_config). -/
structure PeerConf where
  id : Nat
  holdtime : Nat
  min_holdtime : Nat
  remote_as : Nat
  local_as : Nat
  ebgp : Bool
  template : Bool
  passive : Bool
  announce_capa : Bool
  demote_group : Bool
  role : Role
  capabilities : Capa

/-- The global configuration fields used by the embedded operations
(struct bgpd_config, the process-global `conf`). -/
structure GlobalConf where
  holdtime : Nat
  connectretry : Nat
  bgpid : Nat

/-- The runtime peer (struct peer).  capa_ann, capa_peer and capa_neg are
p->capa.ann, p->capa.peer and p->capa.neg; connOpen models fd != -1; rbuf
models the allocated read buffer. -/
structure Peer where
  conf : PeerConf
  state : SessionState
  prev_state : SessionState
  holdtime : Nat
  IdleHoldTime : Nat
  errcnt : Nat
  short_as : Nat
  remote_bgpid : Nat
  remote_role : Role
  capa_ann : Capa
  capa_peer : Capa
  capa_neg : Capa
  stats : Stats
  timers : Timers
  rbuf : Bool
  rpending : Bool
  connOpen : Bool
  demoted : Bool
  depend_ok : Bool
  passive : Bool
  template : Bool

/-- Side effects of the embedded operations: messages queued towards the
peer, imsgs to the RDE, and the pfkey-reload request to the parent. -/
inductive Effect where
  | notifSent (errcode subcode : Nat) (data : List Nat)
  | sentOpen
  | sentKeepalive
  | sentUpdate
  | rdeSessionAdd
  | rdeSessionUp
  | rdeSessionDown
  | rdeSessionStale (aid : Fin 7)
  | rdeSessionNoGrace (aid : Fin 7)
  | rdeSessionFlush (aid : Fin 7)
  | rdeUpdate
  | pfkeyReload
  | tcpConnect
deriving DecidableEq, Repr

/-! Capability negotiation (capa_neg_calc, session.c). -/

/-- The `hasmp` flag of capa_neg_calc: set when the loop saw an announced
multiprotocol AID.  Only p->capa.ann.mp is consulted. -/
def hasmp (annMp : Fin 7 → Bool) : Bool := aidRange.any annMp

/-- The multiprotocol part of capa_neg_calc: the loop sets
neg.mp[i] = ann.mp[i] && peer.mp[i] for AID_MIN ≤ i < AID_MAX, and after the
loop neg.mp[AID_INET] is forced to 1 when no MP capability was announced by
us.  Index 0 (AID_UNSPEC) is outside the loop and keeps its old value. -/
def capa_neg_mp (annMp peerMp oldNegMp : Fin 7 → Bool) : Fin 7 → Bool :=
  fun aid =>
    if 1 ≤ aid.val then
      if aid = AID_INET ∧ hasmp annMp = false then true
      else annMp aid && peerMp aid
    else oldNegMp aid

/-- The peer-side graceful-restart flags after capa_neg_calc disabled the
AIDs that are not part of the negotiated MP set. -/
def capa_neg_gr_peerflags (peerFlags : Fin 7 → Nat) (negMp : Fin 7 → Bool) :
    Fin 7 → Nat :=
  fun aid =>
    if 1 ≤ aid.val ∧ peerFlags aid &&& CAPA_GR_PRESENT ≠ 0 ∧ negMp aid = false
    then 0 else peerFlags aid

/-- The negotiated graceful-restart flags: adopt the (possibly disabled)
peer flags and keep RESTARTING when we still announce graceful restart and
the peer preserved forwarding state. -/
def capa_neg_gr_negflags (annRestart : Nat) (oldNegFlags peerFlags : Fin 7 → Nat) :
    Fin 7 → Nat :=
  fun aid =>
    if 1 ≤ aid.val then
      if oldNegFlags aid &&& CAPA_GR_RESTARTING ≠ 0 ∧ annRestart ≠ 0 ∧
          peerFlags aid &&& CAPA_GR_FORWARD ≠ 0
      then peerFlags aid ||| CAPA_GR_RESTARTING
      else peerFlags aid
    else oldNegFlags aid

/-- The IMSG_SESSION_FLUSH messages emitted by the graceful-restart loop of
capa_neg_calc: one per AID that was RESTARTING but is not restarted. -/
def capa_neg_gr_effects (annRestart : Nat) (oldNegFlags peerFlags : Fin 7 → Nat) :
    List Effect :=
  (aidRange.filter fun aid =>
    decide (oldNegFlags aid &&& CAPA_GR_RESTARTING ≠ 0) &&
    ! (decide (annRestart ≠ 0) && decide (peerFlags aid &&& CAPA_GR_FORWARD ≠ 0))).map
    Effect.rdeSessionFlush

/-- The ADD-PATH part of capa_neg_calc: per AID both directions are compared
crosswise; index 0 aggregates the bits set at any AID. -/
def capa_neg_ap (annAp peerAp : Fin 7 → Nat) : Fin 7 → Nat :=
  fun aid =>
    if 1 ≤ aid.val then
      (if annAp aid &&& CAPA_AP_RECV ≠ 0 ∧ peerAp aid &&& CAPA_AP_SEND ≠ 0
       then CAPA_AP_RECV else 0) +
      (if annAp aid &&& CAPA_AP_SEND ≠ 0 ∧ peerAp aid &&& CAPA_AP_RECV ≠ 0
       then CAPA_AP_SEND else 0)
    else
      (if aidRange.any (fun i =>
          decide (annAp i &&& CAPA_AP_RECV ≠ 0) &&
          decide (peerAp i &&& CAPA_AP_SEND ≠ 0))
       then CAPA_AP_RECV else 0) +
      (if aidRange.any (fun i =>
          decide (annAp i &&& CAPA_AP_SEND ≠ 0) &&
          decide (peerAp i &&& CAPA_AP_RECV ≠ 0))
       then CAPA_AP_SEND else 0)

/-- Validity of an open-policy role pairing (RFC 9234): the switch in
capa_neg_calc; every pairing not listed (including our role being none)
fails. -/
def roleValid : Role → Role → Bool
  | .provider, .customer => true
  | .rs, .rsClient => true
  | .rsClient, .rs => true
  | .customer, .provider => true
  | .rolePeer, .rolePeer => true
  | _, _ => false

/-- Embedding of capa_neg_calc (session.c): computes the negotiated
capability set from the announced and the peer set, emits the
IMSG_SESSION_FLUSH messages of the graceful-restart reconciliation, and
returns `some suberr` when the open-policy check fails (the C function
returns -1 with *suberr set). -/
def capa_neg_calc (p : Peer) : Peer × List Effect × Option Nat :=
  let negMp := capa_neg_mp p.capa_ann.mp p.capa_peer.mp p.capa_neg.mp
  let peerGrFlags := capa_neg_gr_peerflags p.capa_peer.grestart.flags negMp
  let p1 : Peer := { p with
    capa_peer := { p.capa_peer with
      grestart := { p.capa_peer.grestart with flags := peerGrFlags } },
    capa_neg := {
      mp := negMp,
      refresh := p.capa_ann.refresh && p.capa_peer.refresh,
      enhanced_rr := p.capa_ann.enhanced_rr && p.capa_peer.enhanced_rr,
      as4byte := p.capa_ann.as4byte && p.capa_peer.as4byte,
      add_path := capa_neg_ap p.capa_ann.add_path p.capa_peer.add_path,
      grestart := {
        flags := capa_neg_gr_negflags p.capa_ann.grestart.restart
          p.capa_neg.grestart.flags peerGrFlags,
        timeout := p.capa_peer.grestart.timeout,
        restart := if p.capa_ann.grestart.restart = 0 then 0
          else p.capa_peer.grestart.restart },
      policy := p.capa_neg.policy } }
  let effs := capa_neg_gr_effects p.capa_ann.grestart.restart
    p.capa_neg.grestart.flags peerGrFlags
  if p.capa_ann.policy ≠ 0 ∧ p.capa_peer.policy ≠ 0 ∧ p.conf.ebgp then
    if roleValid p.conf.role p.remote_role then
      ({ p1 with capa_neg := { p1.capa_neg with policy := 1 } }, effs, none)
    else (p1, effs, some ERR_OPEN_ROLE)
  else if p.capa_ann.policy = 2 ∧ p.conf.ebgp then
    (p1, effs, some ERR_OPEN_ROLE)
  else (p1, effs, none)

/-! Notification bookkeeping, session up and down. -/

/-- Embedding of session_notification (session.c).  A peer that already
recorded a sent errcode never sends another NOTIFICATION.  `sendOk` models
whether the message could be built and queued (session_newmsg, ibuf_add,
session_sendmsg); only a message actually queued bumps the counter and
records the errcode. -/
def session_notification (p : Peer) (errcode subcode : Nat) (data : List Nat)
    (sendOk : Bool) : Peer × List Effect :=
  if p.stats.last_sent_errcode ≠ 0 then (p, [])
  else if sendOk = false then (p, [])
  else
    ({ p with stats := { p.stats with
        last_sent_errcode := errcode,
        last_sent_suberr := subcode,
        msg_sent_notification := p.stats.msg_sent_notification + 1 } },
     [Effect.notifSent errcode subcode data])

/-- Embedding of session_up (session.c): clear the last error codes now that
the session is up and announce the session to the RDE. -/
def session_up (p : Peer) : Peer × List Effect :=
  ({ p with stats := { p.stats with
      last_sent_errcode := 0, last_sent_suberr := 0,
      last_rcvd_errcode := 0, last_rcvd_suberr := 0, last_reason := [] } },
   [Effect.rdeSessionAdd, Effect.rdeSessionUp])

/-- Embedding of session_down (session.c): zero the negotiated capabilities
and tell the RDE the session is gone. -/
def session_down (p : Peer) : Peer × List Effect :=
  ({ p with capa_neg := zeroCapa }, [Effect.rdeSessionDown])

/-- Embedding of session_capa_ann_none (session.c). -/
def session_capa_ann_none (p : Peer) : Peer :=
  { p with capa_ann := zeroCapa }

/-- Embedding of parse_notification (session.c) on the message body after
the 19-byte header.  A body too short for errcode and subcode fails (-1).
Otherwise the statistics are updated, a shutdown reason is extracted for an
administrative CEASE, and a NOTIFICATION with errcode OPEN and subcode
OPEN_OPT clears the announced capabilities and returns 1; everything else
returns 0. -/
def parse_notification (p : Peer) (body : List Nat) : Peer × Int :=
  match body with
  | errcode :: subcode :: rest =>
    let reason : List Nat :=
      if errcode = ERR_CEASE ∧
          (subcode = ERR_CEASE_ADMIN_DOWN ∨ subcode = ERR_CEASE_ADMIN_RESET) then
        match rest with
        | [] => []
        | rlen :: rdata =>
          if rlen ≠ 0 ∧ rlen ≤ rdata.length then rdata.take rlen else []
      else []
    let p1 : Peer := { p with
      errcnt := p.errcnt + 1,
      stats := { p.stats with
        last_rcvd_errcode := errcode,
        last_rcvd_suberr := subcode,
        last_reason := reason } }
    if errcode = ERR_OPEN ∧ subcode = ERR_OPEN_OPT then
      (session_capa_ann_none p1, 1)
    else (p1, 0)
  | _ => (p, -1)

/-- The sequence of capability codes session_open (session.c) places into
the optional-parameters blob of an outgoing OPEN, in emission order:
multiprotocol (one per announced AID), route refresh, open-policy role
(eBGP with a configured role, and only when IPv4 or IPv6 or no MP at all is
announced), graceful restart, 4-octet AS, ADD-PATH, enhanced route
refresh. -/
def session_open_capas (p : Peer) : List Nat :=
  ((aidRange.filter fun aid => p.capa_ann.mp aid).map fun _ => CAPA_MP) ++
  (if p.capa_ann.refresh then [CAPA_REFRESH] else []) ++
  (if p.conf.ebgp ∧ p.capa_ann.policy ≠ 0 ∧ p.conf.role ≠ Role.roleNone ∧
      (p.capa_ann.mp AID_INET ∨ p.capa_ann.mp AID_INET6 ∨
        (aidRange.filter fun aid => p.capa_ann.mp aid).length = 0)
   then [CAPA_ROLE] else []) ++
  (if p.capa_ann.grestart.restart ≠ 0 then [CAPA_RESTART] else []) ++
  (if p.capa_ann.as4byte then [CAPA_AS4BYTE] else []) ++
  (if p.capa_ann.add_path 1 ≠ 0 then [CAPA_ADD_PATH] else []) ++
  (if p.capa_ann.enhanced_rr then [CAPA_ENHANCED_RR] else [])

/-! The peer finite state machine: change_state, parse_open and bgp_fsm. -/

/-- Modelled from the spec: AS_TRANS of RFC 6793, 23456. -/
def AS_TRANS : Nat := 23456

/-- Interval for the CARP undemotion timer; the value lives in the missing
session.h, the claims do not depend on it. -/
def INTERVAL_HOLD_DEMOTED : Nat := 120

/-- Embedding of start_timer_holdtime (session.c): arm the hold timer with
the current hold time, or stop it when the hold time is zero. -/
def start_timer_holdtime (p : Peer) : Peer :=
  if p.holdtime > 0 then
    { p with timers := { p.timers with hold := some p.holdtime } }
  else
    { p with timers := { p.timers with hold := none } }

/-- Embedding of start_timer_keepalive (session.c): arm the keepalive timer
with a third of the hold time, or stop it when the hold time is zero. -/
def start_timer_keepalive (p : Peer) : Peer :=
  if p.holdtime > 0 then
    { p with timers := { p.timers with keepalive := some (p.holdtime / 3) } }
  else
    { p with timers := { p.timers with keepalive := none } }

/-- Embedding of session_close_connection (session.c). -/
def session_close_connection (p : Peer) : Peer :=
  { p with connOpen := false }

/-- Embedding of session_keepalive (session.c): queue a KEEPALIVE and
restart the keepalive timer (message construction assumed to succeed). -/
def session_keepalive (p : Peer) : Peer × List Effect :=
  (start_timer_keepalive p, [Effect.sentKeepalive])

/-- Embedding of session_open (session.c), reduced to the effects the claims
observe: an OPEN carrying the capability codes of session_open_capas is
queued (message construction assumed to succeed). -/
def session_open (p : Peer) : Peer × List Effect :=
  (p, [Effect.sentOpen])

/-- Embedding of session_graceful_restart (session.c): arm the restart
timeout with the negotiated timeout; for every AID whose negotiated
graceful-restart flags contain PRESENT, send IMSG_SESSION_STALE and mark it
RESTARTING; for every other AID in the negotiated MP set send
IMSG_SESSION_NOGRACE. -/
def session_graceful_restart (p : Peer) : Peer × List Effect :=
  let effs : List Effect := aidRange.foldr
    (fun aid acc =>
      (if p.capa_neg.grestart.flags aid &&& CAPA_GR_PRESENT ≠ 0 then
        [Effect.rdeSessionStale aid]
      else if p.capa_neg.mp aid then [Effect.rdeSessionNoGrace aid]
      else []) ++ acc) []
  let newFlags : Fin 7 → Nat := fun aid =>
    if 1 ≤ aid.val ∧ p.capa_neg.grestart.flags aid &&& CAPA_GR_PRESENT ≠ 0
    then p.capa_neg.grestart.flags aid ||| CAPA_GR_RESTARTING
    else p.capa_neg.grestart.flags aid
  ({ p with
      timers := { p.timers with restartTimeout := some p.capa_neg.grestart.timeout },
      capa_neg := { p.capa_neg with
        grestart := { p.capa_neg.grestart with flags := newFlags } } },
   effs)

/-- The Idle case of change_state (session.c): write out what is buffered,
normalize and re-arm the idle-hold machinery, stop all timers, drop the
connection and buffers, zero the peer capabilities, ask the parent to reload
pfkey, and for a previously Established session either run the
graceful-restart path (negotiated restart = 2 and a connection-loss event)
or report SessionDown to the RDE; finally reinitialize the announced
capabilities when coming from None or Established.  The CARP demotion
side-call (which only talks to the parent) is not modelled. -/
def change_state_idle (maxIdleHold : Nat) (p : Peer) (event : SessionEvent) :
    Peer × List Effect :=
  let v0 := if p.IdleHoldTime = 0 then INTERVAL_IDLE_HOLD_INITIAL else p.IdleHoldTime
  let base : Peer := { p with
    IdleHoldTime := v0,
    holdtime := INTERVAL_HOLD_INITIAL,
    timers := { p.timers with
      connectRetry := none, keepalive := none, hold := none, sendHold := none,
      idleHold := none, idleHoldReset := none },
    connOpen := false, rbuf := false, rpending := false,
    capa_peer := zeroCapa }
  let effs0 : List Effect := if p.template = false then [Effect.pfkeyReload] else []
  let armed : Peer :=
    if event ≠ SessionEvent.stop then
      { base with
        timers := { base.timers with idleHold := some v0 },
        IdleHoldTime :=
          if event ≠ SessionEvent.evNone ∧ v0 < maxIdleHold / 2 then 2 * v0 else v0 }
    else base
  let r : Peer × List Effect :=
    if p.state = SessionState.established then
      if p.capa_neg.grestart.restart = 2 ∧
          (event = SessionEvent.conClosed ∨ event = SessionEvent.conFatal) then
        session_graceful_restart { armed with
          timers := { armed.timers with idleHold := some 0 },
          IdleHoldTime := armed.IdleHoldTime / 2 }
      else session_down armed
    else (armed, [])
  let p3 : Peer :=
    if p.state = SessionState.stateNone ∨ p.state = SessionState.established then
      { r.1 with capa_ann :=
        if p.conf.announce_capa then p.conf.capabilities else zeroCapa }
    else r.1
  (p3, effs0 ++ r.2)

/-- The Connect case of change_state (session.c): when leaving Established
with graceful restart negotiated (restart = 2), do the graceful-restart
dance and reset the connection state in place. -/
def change_state_connect (p : Peer) : Peer × List Effect :=
  if p.state = SessionState.established ∧ p.capa_neg.grestart.restart = 2 then
    let r := session_graceful_restart p
    ({ r.1 with
        holdtime := INTERVAL_HOLD_INITIAL,
        timers := { r.1.timers with
          connectRetry := none, keepalive := none, hold := none,
          sendHold := none, idleHold := none, idleHoldReset := none },
        connOpen := false,
        capa_peer := zeroCapa }, r.2)
  else (p, [])

/-- The Established case of change_state (session.c): arm IdleHoldReset
with the current IdleHoldTime, arm CarpUndemote when demoted, and run
session_up. -/
def change_state_established (p : Peer) : Peer × List Effect :=
  session_up { p with timers := { p.timers with
    idleHoldReset := some p.IdleHoldTime,
    carpUndemote :=
      if p.demoted then some INTERVAL_HOLD_DEMOTED else p.timers.carpUndemote } }

/-- Embedding of change_state (session.c): the per-target-state
side-effects followed by the prev_state/state update. -/
def change_state (maxIdleHold : Nat) (p : Peer) (state : SessionState)
    (event : SessionEvent) : Peer × List Effect :=
  let r : Peer × List Effect :=
    match state with
    | SessionState.idle => change_state_idle maxIdleHold p event
    | SessionState.connect => change_state_connect p
    | SessionState.active =>
      (p, if p.template = false then [Effect.pfkeyReload] else [])
    | SessionState.established => change_state_established p
    | _ => (p, [])
  ({ r.1 with prev_state := r.1.state, state := state }, r.2)

/-- Abstraction of the optional-parameters walk of parse_open together with
parse_capabilities: either the walk succeeds and delivers the peer
capability set, the peer role from the role capability and the four-octet
AS when announced, or it fails with a length mismatch (bad_len), an
unsupported parameter type, or a capability parse error.  The incremental
partial writes to p->capa.peer before a mid-walk failure are not
modelled. -/
inductive OptOutcome where
  | ok (peerCapa : Capa) (remoteRole : Role) (as4 : Option Nat)
  | badLen
  | unsupported
  | capaFail

/-- The decoded fixed fields of a received OPEN message together with the
abstracted optional-parameters section. -/
structure OpenMsg where
  version : Nat
  short_as : Nat
  holdtime : Nat
  bgpid : Nat
  opt : OptOutcome

/-- Failure path of parse_open: send the NOTIFICATION and drop to Idle with
event EVNT_RCVD_OPEN, returning -1. -/
def open_fail (maxIdleHold : Nat) (p : Peer) (errcode subcode : Nat)
    (data : List Nat) : Peer × List Effect × Int :=
  let r1 := session_notification p errcode subcode data true
  let r2 := change_state maxIdleHold r1.1 SessionState.idle SessionEvent.rcvdOpen
  (r2.1, r1.2 ++ r2.2, -1)

/-- The capa_neg_calc call at the end of parse_open: on failure send
NOTIFICATION (OPEN, suberr) and drop to Idle, else succeed. -/
def capa_neg_finish (maxIdleHold : Nat) (r : Peer × List Effect × Option Nat) :
    Peer × List Effect × Int :=
  match r.2.2 with
  | some suberr =>
    let r1 := session_notification r.1 ERR_OPEN suberr [] true
    let r2 := change_state maxIdleHold r1.1 SessionState.idle
      SessionEvent.rcvdOpen
    (r2.1, r.2.1 ++ r1.2 ++ r2.2, -1)
  | none => (r.1, r.2.1, 0)

/-- parse_open's store of the short AS (line `as = peer->short_as = ...`),
performed before the zero-AS check. -/
def po_store_as (p : Peer) (m : OpenMsg) : Peer :=
  { p with short_as := m.short_as }

/-- parse_open's hold-time negotiation: the minimum of the offered hold
time and ours (the per-peer configured value, or the global one when it is
unset). -/
def po_store_hold (g : GlobalConf) (p : Peer) (m : OpenMsg) : Peer :=
  { p with
    holdtime := min m.holdtime
      (if p.conf.holdtime ≠ 0 then p.conf.holdtime else g.holdtime) }

/-- parse_open's store of the remote BGP identifier. -/
def po_store_bgpid (p : Peer) (m : OpenMsg) : Peer :=
  { p with remote_bgpid := m.bgpid }

/-- parse_open's store of the parsed peer capabilities and role. -/
def po_store_capa (p : Peer) (c : Capa) (r : Role) : Peer :=
  { p with capa_peer := c, remote_role := r }

/-- The AS used by the post-checks: the four-octet AS from the capability
when announced, the two-octet field otherwise. -/
def po_as (as4 : Option Nat) (sa : Nat) : Nat :=
  match as4 with
  | some a => a
  | none => sa

/-- parse_open's template adoption: a cloned peer with no configured remote
AS adopts the peer's AS (unless AS_TRANS), turning the session iBGP when it
matches the local AS. -/
def po_adopt (p : Peer) (as : Nat) : Peer :=
  if p.template ∧ p.conf.remote_as = 0 ∧ as ≠ AS_TRANS then
    { p with conf := { p.conf with
        remote_as := as,
        ebgp := as ≠ p.conf.local_as } }
  else p

/-- The unsupported-optional-parameter failure of parse_open: like
open_fail with (OPEN, OPEN_OPT) but without punishing — the IdleHold timer
is zeroed and IdleHoldTime halved after the transition. -/
def po_unsupported (maxIdleHold : Nat) (p : Peer) : Peer × List Effect × Int :=
  let r1 := session_notification p ERR_OPEN ERR_OPEN_OPT [] true
  let r2 := change_state maxIdleHold r1.1 SessionState.idle
    SessionEvent.rcvdOpen
  ({ r2.1 with
      timers := { r2.1.timers with idleHold := some 0 },
      IdleHoldTime := r2.1.IdleHoldTime / 2 },
   r1.2 ++ r2.2, -1)

/-- Embedding of parse_open (session.c) on the decoded message fields:
version check (data byte version - 4 when the version is above ours, else
4), zero-AS check, hold-time check against min_holdtime, hold-time
negotiation (minimum of offered and configured), zero-BGP-ID check, the
optional-parameters walk, template AS adoption, AS mismatch check, iBGP
BGP-ID collision check and capability negotiation. -/
def parse_open (g : GlobalConf) (maxIdleHold : Nat) (p : Peer) (m : OpenMsg) :
    Peer × List Effect × Int :=
  if m.version ≠ BGP_VERSION then
    open_fail maxIdleHold p ERR_OPEN ERR_OPEN_VERSION
      [if m.version > BGP_VERSION then m.version - BGP_VERSION else BGP_VERSION]
  else
    if m.short_as = 0 then
      open_fail maxIdleHold (po_store_as p m) ERR_OPEN ERR_OPEN_AS []
    else if m.holdtime ≠ 0 ∧
        m.holdtime < (po_store_as p m).conf.min_holdtime then
      open_fail maxIdleHold (po_store_as p m) ERR_OPEN ERR_OPEN_HOLDTIME []
    else
      if m.bgpid = 0 then
        open_fail maxIdleHold (po_store_hold g (po_store_as p m) m)
          ERR_OPEN ERR_OPEN_BGPID []
      else
        let p3 := po_store_bgpid (po_store_hold g (po_store_as p m) m) m
        match m.opt with
        | OptOutcome.badLen => open_fail maxIdleHold p3 ERR_OPEN 0 []
        | OptOutcome.capaFail => open_fail maxIdleHold p3 ERR_OPEN 0 []
        | OptOutcome.unsupported => po_unsupported maxIdleHold p3
        | OptOutcome.ok peerCapa rrole as4 =>
          let p4 := po_adopt (po_store_capa p3 peerCapa rrole)
            (po_as as4 m.short_as)
          if p4.conf.remote_as ≠ po_as as4 m.short_as then
            open_fail maxIdleHold p4 ERR_OPEN ERR_OPEN_AS []
          else if p4.conf.ebgp = false ∧ p4.remote_bgpid = g.bgpid then
            open_fail maxIdleHold p4 ERR_OPEN ERR_OPEN_BGPID []
          else
            capa_neg_finish maxIdleHold (capa_neg_calc p4)

/-- FSM inputs: the session_events enumeration with the data a received
message carries (read from the peer ring buffer in the C source) attached
as payload.  `rcvdUpdate` carries whether the relay to the RDE succeeded
(imsg_rde return value in parse_update). -/
inductive FsmInput where
  | start
  | stop
  | conOpen
  | conOpenFail
  | conClosed
  | conFatal
  | timerConnretry
  | timerHoldtime
  | timerSendHold
  | timerKeepalive
  | timerIdleHold
  | rcvdOpen (msg : OpenMsg)
  | rcvdKeepalive
  | rcvdUpdate (relayOk : Bool)
  | rcvdNotification (body : List Nat)

/-- The session_events value corresponding to an FSM input. -/
def FsmInput.tag : FsmInput → SessionEvent
  | FsmInput.start => SessionEvent.start
  | FsmInput.stop => SessionEvent.stop
  | FsmInput.conOpen => SessionEvent.conOpen
  | FsmInput.conOpenFail => SessionEvent.conOpenFail
  | FsmInput.conClosed => SessionEvent.conClosed
  | FsmInput.conFatal => SessionEvent.conFatal
  | FsmInput.timerConnretry => SessionEvent.timerConnretry
  | FsmInput.timerHoldtime => SessionEvent.timerHoldtime
  | FsmInput.timerSendHold => SessionEvent.timerSendHold
  | FsmInput.timerKeepalive => SessionEvent.timerKeepalive
  | FsmInput.timerIdleHold => SessionEvent.timerIdleHold
  | FsmInput.rcvdOpen _ => SessionEvent.rcvdOpen
  | FsmInput.rcvdKeepalive => SessionEvent.rcvdKeepalive
  | FsmInput.rcvdUpdate _ => SessionEvent.rcvdUpdate
  | FsmInput.rcvdNotification _ => SessionEvent.rcvdNotification

/-- Embedding of bgp_fsm (session.c).  The TCP bookkeeping of
session_tcp_established (addresses only) and the socket work of
session_connect are reduced to the tcpConnect effect; message construction
is assumed to succeed. -/
def bgp_fsm (g : GlobalConf) (maxIdleHold : Nat) (p : Peer) (ev : FsmInput) :
    Peer × List Effect :=
  match p.state, ev with
  | SessionState.stateNone, _ => (p, [])
  | SessionState.idle, FsmInput.start =>
    let p1 : Peer := { p with
      timers := { p.timers with
        hold := none, sendHold := none, keepalive := none, idleHold := none },
      rbuf := true }
    if p1.depend_ok = false then
      ({ p1 with
          timers := { p1.timers with connectRetry := none },
          passive := false }, [])
    else if p1.passive ∨ p1.conf.passive ∨ p1.conf.template then
      let r := change_state maxIdleHold p1 SessionState.active SessionEvent.start
      ({ r.1 with
          timers := { r.1.timers with connectRetry := none },
          passive := false }, r.2)
    else
      let r := change_state maxIdleHold p1 SessionState.connect SessionEvent.start
      ({ r.1 with
          timers := { r.1.timers with connectRetry := some g.connectretry },
          passive := false }, r.2 ++ [Effect.tcpConnect])
  | SessionState.idle, _ => (p, [])
  | SessionState.connect, FsmInput.start => (p, [])
  | SessionState.connect, FsmInput.conOpen =>
    let r1 := session_open p
    let p2 := start_timer_holdtime
      { r1.1 with
        timers := { r1.1.timers with connectRetry := none },
        holdtime := INTERVAL_HOLD_INITIAL }
    let r2 := change_state maxIdleHold p2 SessionState.openSent SessionEvent.conOpen
    (r2.1, r1.2 ++ r2.2)
  | SessionState.connect, FsmInput.conOpenFail =>
    let p1 := session_close_connection
      { p with timers := { p.timers with connectRetry := some g.connectretry } }
    change_state maxIdleHold p1 SessionState.active SessionEvent.conOpenFail
  | SessionState.connect, FsmInput.timerConnretry =>
    ({ p with timers := { p.timers with connectRetry := some g.connectretry } },
     [Effect.tcpConnect])
  | SessionState.connect, e => change_state maxIdleHold p SessionState.idle e.tag
  | SessionState.active, FsmInput.start => (p, [])
  | SessionState.active, FsmInput.conOpen =>
    let r1 := session_open p
    let p2 := start_timer_holdtime
      { r1.1 with
        timers := { r1.1.timers with connectRetry := none },
        holdtime := INTERVAL_HOLD_INITIAL }
    let r2 := change_state maxIdleHold p2 SessionState.openSent SessionEvent.conOpen
    (r2.1, r1.2 ++ r2.2)
  | SessionState.active, FsmInput.conOpenFail =>
    let p1 := session_close_connection
      { p with timers := { p.timers with connectRetry := some g.connectretry } }
    change_state maxIdleHold p1 SessionState.active SessionEvent.conOpenFail
  | SessionState.active, FsmInput.timerConnretry =>
    let r := change_state maxIdleHold
      { p with timers := { p.timers with connectRetry := some p.holdtime } }
      SessionState.connect SessionEvent.timerConnretry
    (r.1, r.2 ++ [Effect.tcpConnect])
  | SessionState.active, e => change_state maxIdleHold p SessionState.idle e.tag
  | SessionState.openSent, FsmInput.start => (p, [])
  | SessionState.openSent, FsmInput.stop =>
    change_state maxIdleHold p SessionState.idle SessionEvent.stop
  | SessionState.openSent, FsmInput.conClosed =>
    let p1 := { session_close_connection p with
      timers := { p.timers with connectRetry := some g.connectretry } }
    change_state maxIdleHold p1 SessionState.active SessionEvent.conClosed
  | SessionState.openSent, FsmInput.conFatal =>
    change_state maxIdleHold p SessionState.idle SessionEvent.conFatal
  | SessionState.openSent, FsmInput.timerHoldtime =>
    let r1 := session_notification p ERR_HOLDTIMEREXPIRED 0 [] true
    let r2 := change_state maxIdleHold r1.1 SessionState.idle
      SessionEvent.timerHoldtime
    (r2.1, r1.2 ++ r2.2)
  | SessionState.openSent, FsmInput.timerSendHold =>
    let r1 := session_notification p ERR_SENDHOLDTIMEREXPIRED 0 [] true
    let r2 := change_state maxIdleHold r1.1 SessionState.idle
      SessionEvent.timerSendHold
    (r2.1, r1.2 ++ r2.2)
  | SessionState.openSent, FsmInput.rcvdOpen m =>
    let r := parse_open g maxIdleHold p m
    if r.2.2 ≠ 0 then (r.1, r.2.1)
    else
      let r2 := session_keepalive r.1
      let r3 := change_state maxIdleHold r2.1 SessionState.openConfirm
        SessionEvent.rcvdOpen
      (r3.1, r.2.1 ++ r2.2 ++ r3.2)
  | SessionState.openSent, FsmInput.rcvdNotification body =>
    let r := parse_notification p body
    if r.2 ≠ 0 then
      let r2 := change_state maxIdleHold r.1 SessionState.idle
        SessionEvent.rcvdNotification
      ({ r2.1 with
          timers := { r2.1.timers with idleHold := some 0 },
          IdleHoldTime := r2.1.IdleHoldTime / 2 }, r2.2)
    else
      change_state maxIdleHold r.1 SessionState.idle SessionEvent.rcvdNotification
  | SessionState.openSent, e =>
    let r1 := session_notification p ERR_FSM ERR_FSM_UNEX_OPENSENT [] true
    let r2 := change_state maxIdleHold r1.1 SessionState.idle e.tag
    (r2.1, r1.2 ++ r2.2)
  | SessionState.openConfirm, FsmInput.start => (p, [])
  | SessionState.openConfirm, FsmInput.stop =>
    change_state maxIdleHold p SessionState.idle SessionEvent.stop
  | SessionState.openConfirm, FsmInput.conClosed =>
    change_state maxIdleHold p SessionState.idle SessionEvent.conClosed
  | SessionState.openConfirm, FsmInput.conFatal =>
    change_state maxIdleHold p SessionState.idle SessionEvent.conFatal
  | SessionState.openConfirm, FsmInput.timerHoldtime =>
    let r1 := session_notification p ERR_HOLDTIMEREXPIRED 0 [] true
    let r2 := change_state maxIdleHold r1.1 SessionState.idle
      SessionEvent.timerHoldtime
    (r2.1, r1.2 ++ r2.2)
  | SessionState.openConfirm, FsmInput.timerSendHold =>
    let r1 := session_notification p ERR_SENDHOLDTIMEREXPIRED 0 [] true
    let r2 := change_state maxIdleHold r1.1 SessionState.idle
      SessionEvent.timerSendHold
    (r2.1, r1.2 ++ r2.2)
  | SessionState.openConfirm, FsmInput.timerKeepalive => session_keepalive p
  | SessionState.openConfirm, FsmInput.rcvdKeepalive =>
    change_state maxIdleHold (start_timer_holdtime p) SessionState.established
      SessionEvent.rcvdKeepalive
  | SessionState.openConfirm, FsmInput.rcvdNotification body =>
    let r := parse_notification p body
    change_state maxIdleHold r.1 SessionState.idle SessionEvent.rcvdNotification
  | SessionState.openConfirm, e =>
    let r1 := session_notification p ERR_FSM ERR_FSM_UNEX_OPENCONFIRM [] true
    let r2 := change_state maxIdleHold r1.1 SessionState.idle e.tag
    (r2.1, r1.2 ++ r2.2)
  | SessionState.established, FsmInput.start => (p, [])
  | SessionState.established, FsmInput.stop =>
    change_state maxIdleHold p SessionState.idle SessionEvent.stop
  | SessionState.established, FsmInput.conClosed =>
    change_state maxIdleHold p SessionState.idle SessionEvent.conClosed
  | SessionState.established, FsmInput.conFatal =>
    change_state maxIdleHold p SessionState.idle SessionEvent.conFatal
  | SessionState.established, FsmInput.timerHoldtime =>
    let r1 := session_notification p ERR_HOLDTIMEREXPIRED 0 [] true
    let r2 := change_state maxIdleHold r1.1 SessionState.idle
      SessionEvent.timerHoldtime
    (r2.1, r1.2 ++ r2.2)
  | SessionState.established, FsmInput.timerSendHold =>
    let r1 := session_notification p ERR_SENDHOLDTIMEREXPIRED 0 [] true
    let r2 := change_state maxIdleHold r1.1 SessionState.idle
      SessionEvent.timerSendHold
    (r2.1, r1.2 ++ r2.2)
  | SessionState.established, FsmInput.timerKeepalive => session_keepalive p
  | SessionState.established, FsmInput.rcvdKeepalive => (start_timer_holdtime p, [])
  | SessionState.established, FsmInput.rcvdUpdate relayOk =>
    let p1 := start_timer_holdtime p
    if relayOk then (start_timer_holdtime p1, [Effect.rdeUpdate])
    else change_state maxIdleHold p1 SessionState.idle SessionEvent.rcvdUpdate
  | SessionState.established, FsmInput.rcvdNotification body =>
    let r := parse_notification p body
    change_state maxIdleHold r.1 SessionState.idle SessionEvent.rcvdNotification
  | SessionState.established, e =>
    let r1 := session_notification p ERR_FSM ERR_FSM_UNEX_ESTABLISHED [] true
    let r2 := change_state maxIdleHold r1.1 SessionState.idle e.tag
    (r2.1, r1.2 ++ r2.2)

/-- Embedding of getpeerbyid (session.c) over a peer list ordered by id. -/
def getpeerbyid (peers : List Peer) (id : Nat) : Option Peer :=
  peers.find? fun q => q.conf.id = id

/-- Embedding of session_update (session.c): look the peer up by the id
carried in the imsg; drop the UPDATE silently unless the peer exists and is
Established; otherwise queue the UPDATE and restart the keepalive timer
(message construction assumed to succeed). -/
def session_update (peers : List Peer) (peerid : Nat) :
    List Peer × List Effect :=
  match getpeerbyid peers peerid with
  | none => (peers, [])
  | some p =>
    if p.state ≠ SessionState.established then (peers, [])
    else
      (peers.map fun q =>
        if q.conf.id = peerid then start_timer_keepalive q else q,
       [Effect.sentUpdate])

/-! Concrete sample configuration and peer used by witnesses and
counterexamples. -/

/-- A concrete peer configuration for witnesses. -/
def sampleConf : PeerConf :=
  { id := 1, holdtime := 90, min_holdtime := 3, remote_as := 65002,
    local_as := 65001, ebgp := true, template := false, passive := false,
    announce_capa := true, demote_group := false, role := Role.roleNone,
    capabilities := zeroCapa }

/-- A concrete peer in OpenSent for witnesses. -/
def samplePeer : Peer :=
  { conf := sampleConf, state := SessionState.openSent,
    prev_state := SessionState.active, holdtime := 240, IdleHoldTime := 30,
    errcnt := 0, short_as := 0, remote_bgpid := 0,
    remote_role := Role.roleNone, capa_ann := zeroCapa,
    capa_peer := zeroCapa, capa_neg := zeroCapa, stats := zeroStats,
    timers := { noTimers with hold := some 240 }, rbuf := true,
    rpending := false, connOpen := true, demoted := false, depend_ok := true,
    passive := false, template := false }

/-- A concrete global configuration for witnesses. -/
def sampleGlobal : GlobalConf :=
  { holdtime := 90, connectretry := 120, bgpid := 42 }

/-! C2: capability intersection. -/

/-- The implicit IPv4-unicast rule in the words of the specification, for
comparison against the code: negotiated.mp[INET] is the intersection unless
neither side announced any multiprotocol AID, in which case it is true. -/
def spec_neg_mp_inet (annMp peerMp : Fin 7 → Bool) : Bool :=
  if aidRange.any annMp ∨ aidRange.any peerMp then
    annMp AID_INET && peerMp AID_INET
  else true

/-- Peer for the C2 counterexample: we announce no MP at all, the peer
announces IPv6 unicast only. -/
def c2Peer : Peer :=
  { samplePeer with
    capa_peer := { zeroCapa with mp := fun a => a == AID_INET6 } }

/-- Projection: the negotiated mp bitmap of capa_neg_calc is the
multiprotocol loop regardless of the policy branches. -/
lemma capa_neg_calc_mp (p : Peer) :
    (capa_neg_calc p).1.capa_neg.mp =
      capa_neg_mp p.capa_ann.mp p.capa_peer.mp p.capa_neg.mp := by
  simp only [capa_neg_calc]
  split_ifs <;> rfl

/-- Projection: the negotiated refresh flag of capa_neg_calc. -/
lemma capa_neg_calc_refresh (p : Peer) :
    (capa_neg_calc p).1.capa_neg.refresh =
      (p.capa_ann.refresh && p.capa_peer.refresh) := by
  simp only [capa_neg_calc]
  split_ifs <;> rfl

/-- C2 counterexample: with announced mp empty and the peer announcing the
IPv6 AID, capa_neg_calc sets the implicit negotiated.mp[INET] bit although
the claimed rule (implicit bit exactly when neither side announced any MP
AID) yields false. -/
theorem c2_capa_intersection_counterexample :
    (capa_neg_calc c2Peer).1.capa_neg.mp AID_INET = true ∧
    spec_neg_mp_inet c2Peer.capa_ann.mp c2Peer.capa_peer.mp = false := by
  constructor
  · rw [capa_neg_calc_mp]
    decide
  · decide

/-- C2 (amended): negotiated.refresh = A.refresh AND P.refresh; for every
AID other than INET in the loop range negotiated.mp[aid] = A.mp[aid] AND
P.mp[aid]; and negotiated.mp[INET] = (A.mp[INET] AND P.mp[INET]) OR (our
announced set has no MP AID at all) — the implicit IPv4-unicast bit depends
only on the announced side (`hasmp` scans p->capa.ann.mp), not on the peer;
in particular when neither side announced any MP AID the bit is set, as the
claim states. -/
theorem c2_capa_intersection_amended (p : Peer) :
    (capa_neg_calc p).1.capa_neg.refresh =
      (p.capa_ann.refresh && p.capa_peer.refresh) ∧
    (∀ aid : Fin 7, 1 ≤ aid.val → aid ≠ AID_INET →
      (capa_neg_calc p).1.capa_neg.mp aid =
        (p.capa_ann.mp aid && p.capa_peer.mp aid)) ∧
    ((capa_neg_calc p).1.capa_neg.mp AID_INET =
      ((p.capa_ann.mp AID_INET && p.capa_peer.mp AID_INET) ||
        ! hasmp p.capa_ann.mp)) ∧
    (hasmp p.capa_ann.mp = false ∧ hasmp p.capa_peer.mp = false →
      (capa_neg_calc p).1.capa_neg.mp AID_INET = true) := by
  have hmp := capa_neg_calc_mp p
  refine ⟨capa_neg_calc_refresh p, ?_, ?_, ?_⟩
  · intro aid h1 hne
    rw [hmp]
    simp only [capa_neg_mp, if_pos h1]
    rw [if_neg]
    rintro ⟨he, _⟩
    exact hne he
  · rw [hmp]
    simp only [capa_neg_mp, AID_INET]
    rw [if_pos (by decide : 1 ≤ (1 : Fin 7).val)]
    cases h : hasmp p.capa_ann.mp <;> simp [AID_INET, h]
  · rintro ⟨ha, _⟩
    rw [hmp]
    simp only [capa_neg_mp, AID_INET]
    rw [if_pos (by decide : 1 ≤ (1 : Fin 7).val), if_pos ⟨by trivial, by
      simpa [AID_INET] using ha⟩]

/-- Witness for c2_capa_intersection_amended at the sample peer: the
negotiated INET6 bit is the intersection and, with no MP announced on
either side, the implicit INET bit is set. -/
theorem c2_capa_intersection_amended_witness :
    (capa_neg_calc samplePeer).1.capa_neg.mp AID_INET6 =
      (samplePeer.capa_ann.mp AID_INET6 && samplePeer.capa_peer.mp AID_INET6) ∧
    (capa_neg_calc samplePeer).1.capa_neg.mp AID_INET = true :=
  ⟨(c2_capa_intersection_amended samplePeer).2.1 AID_INET6 (by decide)
      (by decide),
   (c2_capa_intersection_amended samplePeer).2.2.2 ⟨by decide,
      by decide⟩⟩

/-! C3: at most one NOTIFICATION per session lifetime. -/

/-- The calls that touch the one-notification bookkeeping: a
session_notification call (with its errcode, subcode, data and whether the
message could be built) or session coming up (session_up, called from
change_state on entering Established). -/
inductive NotifCall where
  | notify (errcode subcode : Nat) (data : List Nat) (sendOk : Bool)
  | up
deriving DecidableEq

/-- One bookkeeping call applied to the peer. -/
def notifStep (p : Peer) : NotifCall → Peer × List Effect
  | NotifCall.notify e s d ok => session_notification p e s d ok
  | NotifCall.up => session_up p

/-- Recognizer for the notification-sent effect. -/
def isNotifSent : Effect → Bool
  | Effect.notifSent _ _ _ => true
  | _ => false

/-- The number of NOTIFICATIONs actually sent in an effect list. -/
def countNotifs (l : List Effect) : Nat := (l.filter isNotifSent).length

/-- Run a sequence of bookkeeping calls, returning the final peer and the
total number of NOTIFICATIONs sent. -/
def notifRun : Peer → List NotifCall → Peer × Nat
  | p, [] => (p, 0)
  | p, c :: cs =>
    (((notifRun (notifStep p c).1 cs)).1,
     countNotifs (notifStep p c).2 + (notifRun (notifStep p c).1 cs).2)

/-- Validity of a call: every call site of session_notification in the
source passes one of the ERR_* enumerators, all of which are ≥ 1. -/
def notifCallValid : NotifCall → Prop
  | NotifCall.notify e _ _ _ => 0 < e
  | NotifCall.up => True

/-- Bound for notifRun: with valid errcodes and no session-up in the trace,
the number of NOTIFICATIONs sent is at most one when no errcode is recorded
yet and zero when one already is. -/
lemma notifRun_bound (calls : List NotifCall) (p : Peer)
    (hv : ∀ c ∈ calls, notifCallValid c)
    (hnoup : NotifCall.up ∉ calls) :
    (notifRun p calls).2 ≤ if p.stats.last_sent_errcode = 0 then 1 else 0 := by
  induction calls generalizing p with
  | nil => simp [notifRun]
  | cons c cs ih =>
    have hc : notifCallValid c := hv c (List.mem_cons_self c cs)
    have hcs : ∀ x ∈ cs, notifCallValid x := fun x hx => hv x (List.mem_cons_of_mem c hx)
    have hnoup2 : NotifCall.up ∉ cs := fun h => hnoup (List.mem_cons_of_mem c h)
    match c with
    | NotifCall.up => exact absurd (List.mem_cons_self _ cs) hnoup
    | NotifCall.notify e s d ok =>
      simp only [notifRun, notifStep, session_notification]
      by_cases h0 : p.stats.last_sent_errcode = 0
      · by_cases hok : ok = false
        · simp only [h0, if_pos rfl]
          rw [if_neg (by simp [h0]), if_pos hok]
          simpa [countNotifs, isNotifSent, h0] using ih p hcs hnoup2
        · rw [if_neg (by simp [h0]), if_neg hok]
          have hbound := ih ({ p with stats := { p.stats with
            last_sent_errcode := e, last_sent_suberr := s,
            msg_sent_notification := p.stats.msg_sent_notification + 1 } })
            hcs hnoup2
          simp only [notifCallValid] at hc
          simp only [countNotifs, isNotifSent, List.filter, h0, if_pos rfl]
          have : ¬ e = 0 := by omega
          simp only [this, if_false] at hbound
          simpa using hbound
      · rw [if_pos h0]
        simp only [h0, if_false]
        simpa [countNotifs, isNotifSent, h0] using ih p hcs hnoup2

/-- C3: across a session lifetime at most one NOTIFICATION is sent:
session_notification is a no-op whenever a last-sent errcode is recorded;
when none is recorded a successfully built NOTIFICATION is sent and its
errcode recorded; for any sequence of session_notification calls (with the
nonzero ERR_* errcodes the call sites pass) containing no session-up, at
most one NOTIFICATION goes out; a notify call never clears a recorded
errcode, and session_up clears it. -/
theorem c3_one_notification :
    (∀ (p : Peer) (e s : Nat) (d : List Nat) (ok : Bool),
      p.stats.last_sent_errcode ≠ 0 → session_notification p e s d ok = (p, [])) ∧
    (∀ (p : Peer) (e s : Nat) (d : List Nat),
      p.stats.last_sent_errcode = 0 →
      (session_notification p e s d true).1.stats.last_sent_errcode = e ∧
      (session_notification p e s d true).2 = [Effect.notifSent e s d]) ∧
    (∀ (calls : List NotifCall) (p : Peer),
      (∀ c ∈ calls, notifCallValid c) → NotifCall.up ∉ calls →
      p.stats.last_sent_errcode = 0 → (notifRun p calls).2 ≤ 1) ∧
    (∀ (p : Peer) (e s : Nat) (d : List Nat) (ok : Bool),
      p.stats.last_sent_errcode ≠ 0 → 0 < e →
      (session_notification p e s d ok).1.stats.last_sent_errcode ≠ 0) ∧
    (∀ p : Peer, (session_up p).1.stats.last_sent_errcode = 0) := by
  refine ⟨?_, ?_, ?_, ?_, ?_⟩
  · intro p e s d ok h
    simp [session_notification, h]
  · intro p e s d h
    simp [session_notification, h]
  · intro calls p hv hnoup h0
    have := notifRun_bound calls p hv hnoup
    rwa [if_pos h0] at this
  · intro p e s d ok h _
    simp [session_notification, h]
  · intro p
    simp [session_up]

/-- Witness for c3_one_notification: a concrete two-notification trace with
no session-up sends exactly at most one NOTIFICATION, and a recorded
errcode makes session_notification a no-op. -/
theorem c3_one_notification_witness :
    (notifRun samplePeer
      [NotifCall.notify 4 0 [] true, NotifCall.notify 6 2 [] true]).2 ≤ 1 ∧
    session_notification
      { samplePeer with stats := { zeroStats with last_sent_errcode := 4 } }
      6 2 [] true =
      ({ samplePeer with stats := { zeroStats with last_sent_errcode := 4 } },
        []) :=
  ⟨c3_one_notification.2.2.1
      [NotifCall.notify 4 0 [] true, NotifCall.notify 6 2 [] true]
      samplePeer (by intro c hc; fin_cases hc <;> simp [notifCallValid])
      (by decide) (by decide),
   c3_one_notification.1
      { samplePeer with stats := { zeroStats with last_sent_errcode := 4 } }
      6 2 [] true (by decide)⟩

/-! C9: outbound UPDATEs for unknown or non-Established peers are
discarded. -/

/-- C9: an UPDATE from the RDE whose peer-id matches no peer, or whose peer
is not Established, is silently discarded: the peer list is unchanged and
nothing is queued. -/
theorem c9_update_discard (peers : List Peer) (peerid : Nat)
    (h : getpeerbyid peers peerid = none ∨
      ∃ p, getpeerbyid peers peerid = some p ∧
        p.state ≠ SessionState.established) :
    session_update peers peerid = (peers, []) := by
  rcases h with h | ⟨p, hp, hs⟩
  · simp [session_update, h]
  · simp [session_update, hp, hs]

/-- Witness for c9_update_discard: a singleton list with an OpenSent peer
discards an UPDATE addressed to it, and an empty list discards an UPDATE to
any id. -/
theorem c9_update_discard_witness :
    session_update [samplePeer] 1 = ([samplePeer], []) ∧
    session_update [] 7 = ([], []) :=
  ⟨c9_update_discard [samplePeer] 1
      (Or.inr ⟨samplePeer, rfl, by decide⟩),
   c9_update_discard [] 7 (Or.inl rfl)⟩

/-! C10: parse_notification and the OPEN_OPT capability fallback. -/

/-- The announced capability codes are empty once the announced set is
zeroed. -/
lemma session_open_capas_zero (p : Peer) (h : p.capa_ann = zeroCapa) :
    session_open_capas p = [] := by
  simp [session_open_capas, h, zeroCapa, aidRange]

/-- C10: parse_notification returns 1 exactly for a well-formed
NOTIFICATION with errcode OPEN (2) and subcode OPEN_OPT (4); in that case
the announced capability set is cleared, so the next OPEN announces no
capabilities; every other well-formed NOTIFICATION returns 0 and leaves the
announced capabilities unchanged. -/
theorem c10_notification_opt (p : Peer) (body : List Nat) :
    ((parse_notification p body).2 = 1 ↔
      ∃ rest, body = ERR_OPEN :: ERR_OPEN_OPT :: rest) ∧
    ((parse_notification p body).2 = 1 →
      (parse_notification p body).1.capa_ann = zeroCapa ∧
      session_open_capas (parse_notification p body).1 = []) ∧
    ((parse_notification p body).2 = 0 →
      (parse_notification p body).1.capa_ann = p.capa_ann) ∧
    (∀ e s rest, body = e :: s :: rest → ¬(e = ERR_OPEN ∧ s = ERR_OPEN_OPT) →
      (parse_notification p body).2 = 0) := by
  refine ⟨⟨?_, ?_⟩, ?_, ?_, ?_⟩
  · intro h1
    match body with
    | [] => simp [parse_notification] at h1
    | [e] => simp [parse_notification] at h1
    | e :: s :: rest =>
      by_cases hc : e = ERR_OPEN ∧ s = ERR_OPEN_OPT
      · exact ⟨rest, by rw [hc.1, hc.2]⟩
      · simp [parse_notification, hc] at h1
  · rintro ⟨rest, hb⟩
    subst hb
    simp [parse_notification]
  · intro h1
    match body with
    | [] => simp [parse_notification] at h1
    | [e] => simp [parse_notification] at h1
    | e :: s :: rest =>
      by_cases hc : e = ERR_OPEN ∧ s = ERR_OPEN_OPT
      · constructor
        · simp [parse_notification, hc.1, hc.2, session_capa_ann_none]
        · apply session_open_capas_zero
          simp [parse_notification, hc.1, hc.2, session_capa_ann_none]
      · simp [parse_notification, hc] at h1
  · intro h0
    match body with
    | [] => simp [parse_notification] at h0
    | [e] => simp [parse_notification] at h0
    | e :: s :: rest =>
      by_cases hc : e = ERR_OPEN ∧ s = ERR_OPEN_OPT
      · simp [parse_notification, hc.1, hc.2] at h0
      · simp [parse_notification, hc]
  · intro e s rest hb hc
    subst hb
    simp [parse_notification, hc]

/-- Witness for c10_notification_opt: the concrete NOTIFICATION body 2, 4
(OPEN, OPEN_OPT) yields return value 1, and the cleared announced set
produces an OPEN with no capabilities; the body 6, 2 (CEASE, admin down)
yields 0. -/
theorem c10_notification_opt_witness :
    (parse_notification samplePeer [2, 4]).2 = 1 ∧
    session_open_capas (parse_notification samplePeer [2, 4]).1 = [] ∧
    (parse_notification samplePeer [6, 2, 0]).2 = 0 :=
  ⟨(c10_notification_opt samplePeer [2, 4]).1.mpr ⟨[], rfl⟩,
   ((c10_notification_opt samplePeer [2, 4]).2.1
      ((c10_notification_opt samplePeer [2, 4]).1.mpr ⟨[], rfl⟩)).2,
   (c10_notification_opt samplePeer [6, 2, 0]).2.2.2 6 2 [0] rfl
      (by decide)⟩

/-! C5: idle-hold exponential backoff. -/

/-- The IdleHoldTime update performed by change_state on a non-Stop,
non-None entry into Idle (outside the graceful-restart path): a zero value
is first normalized to the initial 30 s, then doubled while still below
maxIdleHold / 2. -/
def idle_hold_step (maxIdleHold v : Nat) : Nat :=
  if (if v = 0 then INTERVAL_IDLE_HOLD_INITIAL else v) < maxIdleHold / 2 then
    2 * (if v = 0 then INTERVAL_IDLE_HOLD_INITIAL else v)
  else (if v = 0 then INTERVAL_IDLE_HOLD_INITIAL else v)

/-- IdleHoldTime after k consecutive protocol-error transitions into Idle,
starting from the initial 30 s. -/
def idleIter (maxIdleHold k : Nat) : Nat :=
  (idle_hold_step maxIdleHold)^[k] INTERVAL_IDLE_HOLD_INITIAL

/-- Embedding of the Timer_IdleHoldReset expiry handler of session_main
(session.c): IdleHoldTime returns to the initial value, errcnt is zeroed
and the timer is stopped. -/
def idle_hold_reset_fire (p : Peer) : Peer :=
  { p with
    IdleHoldTime := INTERVAL_IDLE_HOLD_INITIAL,
    errcnt := 0,
    timers := { p.timers with idleHoldReset := none } }

/-- idle_hold_step on a nonzero value: plain gated doubling. -/
lemma idle_hold_step_pos (mih v : Nat) (h : v ≠ 0) :
    idle_hold_step mih v = if v < mih / 2 then 2 * v else v := by
  simp [idle_hold_step, h]

/-- Projection of change_state to its Idle case. -/
lemma change_state_idle_proj (mih : Nat) (p : Peer) (ev : SessionEvent) :
    (change_state mih p SessionState.idle ev).1.IdleHoldTime =
      (change_state_idle mih p ev).1.IdleHoldTime := rfl

/-- The IdleHoldTime produced by a non-Stop, non-None, non-graceful-restart
entry into Idle is exactly idle_hold_step. -/
lemma change_state_idle_IdleHoldTime (mih : Nat) (p : Peer) (ev : SessionEvent)
    (h1 : ev ≠ SessionEvent.stop) (h2 : ev ≠ SessionEvent.evNone)
    (h3 : ¬(p.state = SessionState.established ∧
      p.capa_neg.grestart.restart = 2 ∧
      (ev = SessionEvent.conClosed ∨ ev = SessionEvent.conFatal))) :
    (change_state mih p SessionState.idle ev).1.IdleHoldTime =
      idle_hold_step mih p.IdleHoldTime := by
  rw [change_state_idle_proj]
  simp only [change_state_idle, session_down, idle_hold_step]
  split_ifs <;> simp_all

/-- C5 counterexample: with the upstream MAX_IDLE_HOLD value 3600, after 6
consecutive protocol-error transitions the code's IdleHoldTime is 1920 (the
doubling is only gated, not clamped), while the claimed formula
min(INITIAL * 2^k, MAX_IDLE_HOLD / 2) yields 1800. -/
theorem c5_idlehold_counterexample :
    idleIter 3600 6 ≠ min (INTERVAL_IDLE_HOLD_INITIAL * 2 ^ 6) (3600 / 2) := by
  decide

/-- C5 (amended): each protocol-error (non-Stop, non-None) entry into Idle
outside the graceful-restart path applies idle_hold_step, so starting from
the initial 30 s the value after k such transitions is INITIAL * 2^k as
long as every previous value was below MAX_IDLE_HOLD / 2; once a value
reaches MAX_IDLE_HOLD / 2 it stops changing (the final value may exceed
MAX_IDLE_HOLD / 2, so the claimed min-clamp does not hold in general); on a
Stop-caused entry no IdleHold timer is armed and no doubling occurs; when
the IdleHoldReset timer fires IdleHoldTime returns to the initial 30 s and
errcnt is reset to 0. -/
theorem c5_idlehold_amended :
    (∀ (mih : Nat) (p : Peer) (ev : SessionEvent),
      ev ≠ SessionEvent.stop → ev ≠ SessionEvent.evNone →
      ¬(p.state = SessionState.established ∧
        p.capa_neg.grestart.restart = 2 ∧
        (ev = SessionEvent.conClosed ∨ ev = SessionEvent.conFatal)) →
      (change_state mih p SessionState.idle ev).1.IdleHoldTime =
        idle_hold_step mih p.IdleHoldTime) ∧
    (∀ mih k, (∀ j < k, INTERVAL_IDLE_HOLD_INITIAL * 2 ^ j < mih / 2) →
      idleIter mih k = INTERVAL_IDLE_HOLD_INITIAL * 2 ^ k) ∧
    (∀ mih v, 0 < v → mih / 2 ≤ v → idle_hold_step mih v = v) ∧
    (∀ (mih : Nat) (p : Peer),
      (change_state mih p SessionState.idle SessionEvent.stop).1.timers.idleHold
        = none ∧
      (change_state mih p SessionState.idle SessionEvent.stop).1.IdleHoldTime =
        (if p.IdleHoldTime = 0 then INTERVAL_IDLE_HOLD_INITIAL
         else p.IdleHoldTime)) ∧
    (∀ p : Peer, (idle_hold_reset_fire p).IdleHoldTime =
        INTERVAL_IDLE_HOLD_INITIAL ∧ (idle_hold_reset_fire p).errcnt = 0 ∧
      (idle_hold_reset_fire p).timers.idleHoldReset = none) := by
  refine ⟨change_state_idle_IdleHoldTime, ?_, ?_, ?_, ?_⟩
  · intro mih k
    induction k with
    | zero => intro _; simp [idleIter]
    | succ n ih =>
      intro h
      have hn := ih fun j hj => h j (Nat.lt_succ_of_lt hj)
      rw [idleIter, Function.iterate_succ_apply', ← idleIter, hn]
      have hpos : INTERVAL_IDLE_HOLD_INITIAL * 2 ^ n ≠ 0 := by
        unfold INTERVAL_IDLE_HOLD_INITIAL
        positivity
      have hlt := h n (Nat.lt_succ_self n)
      rw [idle_hold_step_pos _ _ hpos, if_pos hlt, pow_succ]
      ring
  · intro mih v hv hle
    rw [idle_hold_step_pos _ _ (by omega), if_neg (by omega)]
  · intro mih p
    constructor
    · show (change_state_idle mih p SessionEvent.stop).1.timers.idleHold = none
      simp only [change_state_idle, session_down]
      split_ifs <;> simp_all
    · rw [change_state_idle_proj]
      simp only [change_state_idle, session_down]
      split_ifs <;> simp_all
  · intro p
    refine ⟨rfl, rfl, ?_⟩
    simp [idle_hold_reset_fire]

/-- Witness for c5_idlehold_amended: three protocol-error transitions take
IdleHoldTime from 30 to 240 when MAX_IDLE_HOLD is 3600; one conFatal entry
into Idle from OpenSent doubles the sample peer's 30 to 60; a value at the
cap no longer changes. -/
theorem c5_idlehold_amended_witness :
    idleIter 3600 3 = INTERVAL_IDLE_HOLD_INITIAL * 2 ^ 3 ∧
    (change_state 3600 samplePeer SessionState.idle
      SessionEvent.conFatal).1.IdleHoldTime = 60 ∧
    idle_hold_step 3600 1920 = 1920 :=
  ⟨c5_idlehold_amended.2.1 3600 3 (by decide),
   by
    rw [c5_idlehold_amended.1 3600 samplePeer SessionEvent.conFatal
      (by decide) (by decide) (by decide)]
    decide,
   c5_idlehold_amended.2.2.1 3600 1920 (by decide) (by decide)⟩

/-! C6, C7: the early field checks of parse_open. -/

/-- Shape of the parse_open failure path: -1 is returned, the peer drops to
Idle and the first effect is the NOTIFICATION (provided none was recorded
yet). -/
lemma open_fail_spec (mih : Nat) (p : Peer) (e s : Nat) (d : List Nat)
    (h0 : p.stats.last_sent_errcode = 0) :
    (open_fail mih p e s d).2.2 = -1 ∧
    (open_fail mih p e s d).1.state = SessionState.idle ∧
    (open_fail mih p e s d).2.1.head? = some (Effect.notifSent e s d) := by
  unfold open_fail session_notification
  rw [if_neg (by simp [h0])]
  exact ⟨rfl, rfl, rfl⟩

/-- The OPEN message of the C7 counterexample: version 5, otherwise well
formed. -/
def c7Msg : OpenMsg :=
  { version := 5, short_as := 65002, holdtime := 90, bgpid := 7,
    opt := OptOutcome.ok zeroCapa Role.roleNone none }

/-- C7 counterexample: for a peer OPEN with version 5 the code's
NOTIFICATION (OPEN, VERSION) carries the data byte 5 - 4 = 1, while the
claimed formula max(4, peer_version - 4) yields 4. -/
theorem c7_version_counterexample :
    (parse_open sampleGlobal 3600 samplePeer c7Msg).2.1.head? =
      some (Effect.notifSent ERR_OPEN ERR_OPEN_VERSION [1]) ∧
    (parse_open sampleGlobal 3600 samplePeer c7Msg).2.1.head? ≠
      some (Effect.notifSent ERR_OPEN ERR_OPEN_VERSION
        [max BGP_VERSION (5 - BGP_VERSION)]) := by
  constructor
  · decide
  · decide

/-- C7 (amended): for every received OPEN whose version octet differs from
4, parse_open fails (-1), the peer transitions to Idle, and the one-byte
data of the NOTIFICATION (OPEN, VERSION) is version - 4 when the version is
above 4 and 4 otherwise (this equals max(4, version - 4) only when the
version is ≥ 8 or < 4). -/
theorem c7_version_amended (g : GlobalConf) (mih : Nat) (p : Peer)
    (m : OpenMsg) (h0 : p.stats.last_sent_errcode = 0)
    (hv : m.version ≠ BGP_VERSION) :
    (parse_open g mih p m).2.2 = -1 ∧
    (parse_open g mih p m).1.state = SessionState.idle ∧
    (parse_open g mih p m).2.1.head? = some (Effect.notifSent ERR_OPEN
      ERR_OPEN_VERSION
      [if m.version > BGP_VERSION then m.version - BGP_VERSION
       else BGP_VERSION]) := by
  unfold parse_open
  rw [if_pos hv]
  exact open_fail_spec mih p ERR_OPEN ERR_OPEN_VERSION _ h0

/-- Witness for c7_version_amended: a concrete OPEN with version 0 is
rejected with NOTIFICATION (OPEN, VERSION) and data byte 4. -/
theorem c7_version_amended_witness :
    (parse_open sampleGlobal 3600 samplePeer
      { c7Msg with version := 0 }).2.2 = -1 ∧
    (parse_open sampleGlobal 3600 samplePeer
      { c7Msg with version := 0 }).2.1.head? =
      some (Effect.notifSent ERR_OPEN ERR_OPEN_VERSION [4]) := by
  have h := c7_version_amended sampleGlobal 3600 samplePeer
    { c7Msg with version := 0 } (by decide) (by decide)
  exact ⟨h.1, h.2.2⟩

/-- C6: parse_open rejects a hold-time of 1 or 2 and any nonzero hold-time
below the configured min_holdtime with NOTIFICATION errcode 2 (OPEN) and
subcode 6 (unacceptable hold time), dropping the session to Idle.  The
rejection of 1 and 2 relies on min_holdtime ≥ 3; the hypothesis models the
configuration invariant (the parser enforcing it is outside this
repository; the specification words the rejection of 1 and 2
unconditionally). -/
theorem c6_holdtime_reject (g : GlobalConf) (mih : Nat) (p : Peer)
    (m : OpenMsg) (h0 : p.stats.last_sent_errcode = 0)
    (hmin : 3 ≤ p.conf.min_holdtime) (hv : m.version = BGP_VERSION)
    (has : m.short_as ≠ 0)
    (hh : m.holdtime = 1 ∨ m.holdtime = 2 ∨
      (m.holdtime ≠ 0 ∧ m.holdtime < p.conf.min_holdtime)) :
    (parse_open g mih p m).2.2 = -1 ∧
    (parse_open g mih p m).1.state = SessionState.idle ∧
    (parse_open g mih p m).2.1.head? =
      some (Effect.notifSent ERR_OPEN ERR_OPEN_HOLDTIME []) := by
  unfold parse_open
  rw [if_neg (by simp [hv]), if_neg has, if_pos (by
    refine ⟨?_, ?_⟩
    · rcases hh with h | h | h <;> omega
    · show m.holdtime < (po_store_as p m).conf.min_holdtime
      simp only [po_store_as]
      rcases hh with h | h | h <;> omega)]
  exact open_fail_spec mih _ ERR_OPEN ERR_OPEN_HOLDTIME []
    (by simpa [po_store_as] using h0)

/-- Witness for c6_holdtime_reject: a concrete OPEN with hold-time 1 is
answered with NOTIFICATION (2, 6) and the peer drops to Idle. -/
theorem c6_holdtime_reject_witness :
    (parse_open sampleGlobal 3600 samplePeer
      { c7Msg with version := 4, holdtime := 1 }).2.2 = -1 ∧
    (parse_open sampleGlobal 3600 samplePeer
      { c7Msg with version := 4, holdtime := 1 }).1.state =
        SessionState.idle ∧
    (parse_open sampleGlobal 3600 samplePeer
      { c7Msg with version := 4, holdtime := 1 }).2.1.head? =
      some (Effect.notifSent ERR_OPEN ERR_OPEN_HOLDTIME []) :=
  c6_holdtime_reject sampleGlobal 3600 samplePeer
    { c7Msg with version := 4, holdtime := 1 } (by decide) (by decide)
    (by decide) (by decide) (Or.inl (by decide))

/-! C8: the graceful-restart path of the transition to Idle. -/

/-- An AID is in the loop range exactly when it is not AID_UNSPEC. -/
lemma mem_aidRange (aid : Fin 7) : aid ∈ aidRange ↔ 1 ≤ aid.val := by
  fin_cases aid <;> simp [aidRange]

/-- Membership of a SessionStale message in the graceful-restart loop
effects: exactly the AIDs of the list whose flags contain PRESENT. -/
lemma gr_fold_stale_mem (flags : Fin 7 → Nat) (mp : Fin 7 → Bool)
    (l : List (Fin 7)) (aid : Fin 7) :
    (Effect.rdeSessionStale aid ∈ l.foldr (fun i acc =>
      (if flags i &&& CAPA_GR_PRESENT ≠ 0 then [Effect.rdeSessionStale i]
       else if mp i then [Effect.rdeSessionNoGrace i] else []) ++ acc) []) ↔
      (aid ∈ l ∧ flags aid &&& CAPA_GR_PRESENT ≠ 0) := by
  induction l with
  | nil => simp
  | cons i t ih =>
    simp only [List.foldr_cons, List.mem_append, ih, List.mem_cons]
    by_cases h1 : flags i &&& CAPA_GR_PRESENT ≠ 0
    · rw [if_pos h1]
      constructor
      · rintro (hm | ⟨ht, hp⟩)
        · simp only [List.mem_singleton, Effect.rdeSessionStale.injEq] at hm
          exact ⟨Or.inl hm, hm ▸ h1⟩
        · exact ⟨Or.inr ht, hp⟩
      · rintro ⟨rfl | ht, hp⟩
        · exact Or.inl (by simp)
        · exact Or.inr ⟨ht, hp⟩
    · rw [if_neg h1]
      have hno : Effect.rdeSessionStale aid ∉
          (if mp i then [Effect.rdeSessionNoGrace i] else []) := by
        split_ifs <;> simp
      constructor
      · rintro (hm | ⟨ht, hp⟩)
        · exact absurd hm hno
        · exact ⟨Or.inr ht, hp⟩
      · rintro ⟨rfl | ht, hp⟩
        · exact absurd hp h1
        · exact Or.inr ⟨ht, hp⟩

/-- The graceful-restart loop effects never contain a SessionDown. -/
lemma gr_fold_no_down (flags : Fin 7 → Nat) (mp : Fin 7 → Bool)
    (l : List (Fin 7)) :
    Effect.rdeSessionDown ∉ l.foldr (fun i acc =>
      (if flags i &&& CAPA_GR_PRESENT ≠ 0 then [Effect.rdeSessionStale i]
       else if mp i then [Effect.rdeSessionNoGrace i] else []) ++ acc) [] := by
  induction l with
  | nil => simp
  | cons i t ih =>
    simp only [List.foldr_cons, List.mem_append]
    rintro (hm | hm)
    · split_ifs at hm <;> simp_all
    · exact ih hm

set_option maxHeartbeats 2000000 in
/-- Decomposition of change_state to Idle on the graceful-restart path
(previous state Established, negotiated restart = 2, event ConClosed or
ConFatal): the IdleHold timer ends at 0, RestartTimeout is armed with the
negotiated timeout, IdleHoldTime is the gated doubling followed by a
halving, the negotiated GR flags gain RESTARTING exactly on the PRESENT
AIDs, and the effects are the pfkey reload followed by the loop
messages. -/
lemma change_state_gr_path (mih : Nat) (p : Peer) (ev : SessionEvent)
    (hst : p.state = SessionState.established)
    (hr : p.capa_neg.grestart.restart = 2)
    (hev : ev = SessionEvent.conClosed ∨ ev = SessionEvent.conFatal) :
    (change_state mih p SessionState.idle ev).1.timers.idleHold = some 0 ∧
    (change_state mih p SessionState.idle ev).1.timers.restartTimeout =
      some p.capa_neg.grestart.timeout ∧
    (change_state mih p SessionState.idle ev).1.IdleHoldTime =
      idle_hold_step mih p.IdleHoldTime / 2 ∧
    (change_state mih p SessionState.idle ev).1.capa_neg.grestart.flags =
      (fun aid =>
        if 1 ≤ aid.val ∧ p.capa_neg.grestart.flags aid &&& CAPA_GR_PRESENT ≠ 0
        then p.capa_neg.grestart.flags aid ||| CAPA_GR_RESTARTING
        else p.capa_neg.grestart.flags aid) ∧
    (change_state mih p SessionState.idle ev).2 =
      (if p.template = false then [Effect.pfkeyReload] else []) ++
      aidRange.foldr (fun i acc =>
        (if p.capa_neg.grestart.flags i &&& CAPA_GR_PRESENT ≠ 0 then
          [Effect.rdeSessionStale i]
         else if p.capa_neg.mp i then [Effect.rdeSessionNoGrace i]
         else []) ++ acc) [] := by
  rcases hev with rfl | rfl <;>
    refine ⟨?_, ?_, ?_, ?_, ?_⟩ <;>
      by_cases h0 : p.IdleHoldTime = 0 <;>
        by_cases hlt : (if p.IdleHoldTime = 0 then INTERVAL_IDLE_HOLD_INITIAL
          else p.IdleHoldTime) < mih / 2 <;>
          simp_all [change_state, change_state_idle, session_graceful_restart,
            session_down, idle_hold_step]

/-- C8 counterexample peer: Established, graceful restart negotiated with
restart = 2 and timeout 120, IPv4 PRESENT, IdleHoldTime 30. -/
def c8Peer : Peer :=
  { samplePeer with
    state := SessionState.established,
    capa_neg := { zeroCapa with
      mp := fun a => a == AID_INET,
      grestart := {
        flags := fun a => if a = AID_INET then CAPA_GR_PRESENT else 0,
        timeout := 120, restart := 2 } } }

/-- C8 counterexample: on the graceful-restart path the halving follows the
regular gated doubling, so for a value below MAX_IDLE_HOLD / 2 the net
IdleHoldTime is unchanged (30), not halved to 15 as the claim states. -/
theorem c8_graceful_restart_counterexample :
    (change_state 3600 c8Peer SessionState.idle
      SessionEvent.conClosed).1.IdleHoldTime = c8Peer.IdleHoldTime ∧
    (change_state 3600 c8Peer SessionState.idle
      SessionEvent.conClosed).1.IdleHoldTime ≠ c8Peer.IdleHoldTime / 2 := by
  constructor
  · decide
  · decide

/-- C8 (amended): when a peer in Established with graceful restart
negotiated (restart = 2) receives ConClosed or ConFatal, the transition to
Idle takes the graceful-restart path: the IdleHold timer is set to 0; the
entry doubling is followed by a halving, so the net IdleHoldTime is the
gated doubling divided by two (unchanged whenever the value was below
MAX_IDLE_HOLD / 2, halved once it was at or above it); every AID whose
negotiated graceful-restart flags include PRESENT is marked RESTARTING and
gets a SessionStale message to the RDE (and only those get SessionStale);
the RestartTimeout timer is armed with the negotiated timeout; and no
SessionDown message is emitted to the RDE. -/
theorem c8_graceful_restart_amended (mih : Nat) (p : Peer)
    (ev : SessionEvent) (hst : p.state = SessionState.established)
    (hr : p.capa_neg.grestart.restart = 2)
    (hev : ev = SessionEvent.conClosed ∨ ev = SessionEvent.conFatal) :
    (change_state mih p SessionState.idle ev).1.timers.idleHold = some 0 ∧
    (change_state mih p SessionState.idle ev).1.timers.restartTimeout =
      some p.capa_neg.grestart.timeout ∧
    (change_state mih p SessionState.idle ev).1.IdleHoldTime =
      idle_hold_step mih p.IdleHoldTime / 2 ∧
    (∀ aid : Fin 7, 1 ≤ aid.val →
      p.capa_neg.grestart.flags aid &&& CAPA_GR_PRESENT ≠ 0 →
      Effect.rdeSessionStale aid ∈ (change_state mih p SessionState.idle ev).2 ∧
      (change_state mih p SessionState.idle ev).1.capa_neg.grestart.flags aid =
        (p.capa_neg.grestart.flags aid ||| CAPA_GR_RESTARTING)) ∧
    (∀ aid : Fin 7,
      Effect.rdeSessionStale aid ∈ (change_state mih p SessionState.idle ev).2 →
      p.capa_neg.grestart.flags aid &&& CAPA_GR_PRESENT ≠ 0) ∧
    Effect.rdeSessionDown ∉ (change_state mih p SessionState.idle ev).2 := by
  obtain ⟨h1, h2, h3, h4, h5⟩ := change_state_gr_path mih p ev hst hr hev
  refine ⟨h1, h2, h3, ?_, ?_, ?_⟩
  · intro aid ha hp
    constructor
    · rw [h5, List.mem_append]
      exact Or.inr ((gr_fold_stale_mem _ _ _ _).mpr
        ⟨(mem_aidRange aid).mpr ha, hp⟩)
    · rw [h4]
      exact if_pos ⟨ha, hp⟩
  · intro aid hm
    rw [h5, List.mem_append] at hm
    rcases hm with hm | hm
    · split_ifs at hm <;> simp_all
    · exact ((gr_fold_stale_mem _ _ _ _).mp hm).2
  · rw [h5, List.mem_append]
    rintro (hm | hm)
    · split_ifs at hm <;> simp_all
    · exact gr_fold_no_down _ _ _ hm

/-- Witness for c8_graceful_restart_amended at the concrete c8Peer: the
IdleHold timer is set to 0, RestartTimeout is armed with 120 s,
SessionStale(IPv4) is emitted, the IPv4 flags gain RESTARTING, and no
SessionDown is sent. -/
theorem c8_graceful_restart_amended_witness :
    (change_state 3600 c8Peer SessionState.idle
      SessionEvent.conClosed).1.timers.idleHold = some 0 ∧
    (change_state 3600 c8Peer SessionState.idle
      SessionEvent.conClosed).1.timers.restartTimeout = some 120 ∧
    Effect.rdeSessionStale AID_INET ∈
      (change_state 3600 c8Peer SessionState.idle SessionEvent.conClosed).2 ∧
    Effect.rdeSessionDown ∉
      (change_state 3600 c8Peer SessionState.idle SessionEvent.conClosed).2 := by
  obtain ⟨h1, h2, _, h4, _, h6⟩ := c8_graceful_restart_amended 3600 c8Peer
    SessionEvent.conClosed rfl (by decide) (Or.inl rfl)
  exact ⟨h1, h2, (h4 AID_INET (by decide) (by decide)).1, h6⟩

/-! C4: hold-time discipline of the OPEN exchange. -/

/-- change_state always enters the requested state. -/
lemma change_state_state (mih : Nat) (p : Peer) (s : SessionState)
    (ev : SessionEvent) : (change_state mih p s ev).1.state = s := by
  cases s <;> rfl

/-- Entering OpenSent leaves the hold-time field untouched. -/
lemma change_state_openSent_holdtime (mih : Nat) (p : Peer)
    (ev : SessionEvent) :
    (change_state mih p SessionState.openSent ev).1.holdtime = p.holdtime := rfl

/-- Entering OpenSent leaves the timers untouched. -/
lemma change_state_openSent_timers (mih : Nat) (p : Peer) (ev : SessionEvent) :
    (change_state mih p SessionState.openSent ev).1.timers = p.timers := rfl

/-- Entering OpenConfirm leaves the hold-time field untouched. -/
lemma change_state_openConfirm_holdtime (mih : Nat) (p : Peer)
    (ev : SessionEvent) :
    (change_state mih p SessionState.openConfirm ev).1.holdtime =
      p.holdtime := rfl

/-- Entering OpenConfirm leaves the timers untouched. -/
lemma change_state_openConfirm_timers (mih : Nat) (p : Peer)
    (ev : SessionEvent) :
    (change_state mih p SessionState.openConfirm ev).1.timers = p.timers := rfl

/-- Entering Established arms IdleHoldReset and possibly CarpUndemote but
leaves the hold timer untouched. -/
lemma change_state_established_hold (mih : Nat) (p : Peer)
    (ev : SessionEvent) :
    (change_state mih p SessionState.established ev).1.timers.hold =
      p.timers.hold := rfl

/-- start_timer_holdtime arms the hold timer with the current hold time (or
stops it at zero) and changes nothing else the claims look at. -/
lemma start_timer_holdtime_spec (p : Peer) :
    (start_timer_holdtime p).timers.hold =
      (if 0 < p.holdtime then some p.holdtime else none) ∧
    (start_timer_holdtime p).holdtime = p.holdtime ∧
    (start_timer_holdtime p).state = p.state := by
  unfold start_timer_holdtime
  split_ifs <;> exact ⟨rfl, rfl, rfl⟩

/-- start_timer_keepalive does not touch the hold timer, the hold time or
the state. -/
lemma start_timer_keepalive_spec (p : Peer) :
    (start_timer_keepalive p).timers.hold = p.timers.hold ∧
    (start_timer_keepalive p).holdtime = p.holdtime ∧
    (start_timer_keepalive p).state = p.state := by
  unfold start_timer_keepalive
  split_ifs <;> exact ⟨rfl, rfl, rfl⟩

/-- capa_neg_calc does not touch the state, the timers or the hold time. -/
lemma capa_neg_calc_preserves (p : Peer) :
    (capa_neg_calc p).1.state = p.state ∧
    (capa_neg_calc p).1.timers = p.timers ∧
    (capa_neg_calc p).1.holdtime = p.holdtime := by
  simp only [capa_neg_calc]
  split_ifs <;> exact ⟨rfl, rfl, rfl⟩

/-- A failing capa_neg_finish drops the peer to Idle. -/
lemma capa_neg_finish_state (mih : Nat) (r : Peer × List Effect × Option Nat)
    (h : (capa_neg_finish mih r).2.2 ≠ 0) :
    (capa_neg_finish mih r).1.state = SessionState.idle := by
  rcases r with ⟨p, effs, sub⟩
  cases sub with
  | none => exact absurd rfl h
  | some s => rfl

/-- A successful capa_neg_finish returns the capa_neg_calc peer. -/
lemma capa_neg_finish_zero (mih : Nat) (r : Peer × List Effect × Option Nat)
    (h : (capa_neg_finish mih r).2.2 = 0) :
    (capa_neg_finish mih r).1 = r.1 := by
  rcases r with ⟨p, effs, sub⟩
  cases sub with
  | none => rfl
  | some s => simp [capa_neg_finish] at h

/-- Projection facts for open_fail: -1 is returned, the peer ends in
Idle. -/
lemma open_fail_state (mih : Nat) (p : Peer) (e s : Nat) (d : List Nat) :
    (open_fail mih p e s d).1.state = SessionState.idle := rfl

/-- open_fail returns -1. -/
lemma open_fail_ret (mih : Nat) (p : Peer) (e s : Nat) (d : List Nat) :
    (open_fail mih p e s d).2.2 = -1 := rfl

/-- po_unsupported drops to Idle. -/
lemma po_unsupported_state (mih : Nat) (p : Peer) :
    (po_unsupported mih p).1.state = SessionState.idle := rfl

/-- po_unsupported returns -1. -/
lemma po_unsupported_ret (mih : Nat) (p : Peer) :
    (po_unsupported mih p).2.2 = -1 := rfl

/-- po_adopt only touches the configuration. -/
lemma po_adopt_preserves (p : Peer) (as : Nat) :
    (po_adopt p as).state = p.state ∧ (po_adopt p as).timers = p.timers ∧
    (po_adopt p as).holdtime = p.holdtime := by
  unfold po_adopt
  split_ifs <;> exact ⟨rfl, rfl, rfl⟩

/-- A failing parse_open leaves the peer in Idle. -/
lemma parse_open_fail_state (g : GlobalConf) (mih : Nat) (p : Peer)
    (m : OpenMsg) (hne : (parse_open g mih p m).2.2 ≠ 0) :
    (parse_open g mih p m).1.state = SessionState.idle := by
  rcases m with ⟨v, sa, hld, bid, opt⟩
  cases opt <;>
    simp only [parse_open] at hne ⊢ <;>
    split_ifs at hne ⊢ <;>
    first
      | exact open_fail_state _ _ _ _ _
      | exact po_unsupported_state _ _
      | exact capa_neg_finish_state _ _ hne

/-- A successful parse_open keeps the state and the timers and stores the
negotiated hold time: the minimum of the offered hold time and ours
(per-peer configured value, or the global one when unset). -/
lemma parse_open_success (g : GlobalConf) (mih : Nat) (p : Peer) (m : OpenMsg)
    (h0 : (parse_open g mih p m).2.2 = 0) :
    (parse_open g mih p m).1.state = p.state ∧
    (parse_open g mih p m).1.timers = p.timers ∧
    (parse_open g mih p m).1.holdtime =
      min m.holdtime
        (if p.conf.holdtime ≠ 0 then p.conf.holdtime else g.holdtime) := by
  rcases m with ⟨v, sa, hld, bid, opt⟩
  cases opt <;>
    simp only [parse_open] at h0 ⊢ <;>
    split_ifs at h0 ⊢ <;>
    first
      | (rw [open_fail_ret] at h0; exact absurd h0 (by decide))
      | (rw [po_unsupported_ret] at h0; exact absurd h0 (by decide))
      | (rw [capa_neg_finish_zero _ _ h0]
         refine ⟨?_, ?_, ?_⟩
         · rw [(capa_neg_calc_preserves _).1, (po_adopt_preserves _ _).1]
           rfl
         · rw [(capa_neg_calc_preserves _).2.1, (po_adopt_preserves _ _).2.1]
           rfl
         · rw [(capa_neg_calc_preserves _).2.2, (po_adopt_preserves _ _).2.2]
           simp only [po_store_capa, po_store_bgpid, po_store_hold, po_store_as]
           split_ifs <;> simp_all)

/-- Invariant (claim C4, first half): a peer in OpenSent has its hold-time
field and its armed hold timer at the initial 240 s. -/
def opensent_hold_inv (p : Peer) : Prop :=
  p.state = SessionState.openSent →
    p.holdtime = INTERVAL_HOLD_INITIAL ∧
    p.timers.hold = some INTERVAL_HOLD_INITIAL

/-- Invariant (claim C4, second half): a peer in OpenConfirm still has the
hold timer armed at the initial 240 s (the negotiated value is armed only
at the first KEEPALIVE). -/
def openconfirm_hold_inv (p : Peer) : Prop :=
  p.state = SessionState.openConfirm →
    p.timers.hold = some INTERVAL_HOLD_INITIAL

/-- start_timer_holdtime leaves the state unchanged. -/
lemma start_timer_holdtime_state (p : Peer) :
    (start_timer_holdtime p).state = p.state := by
  unfold start_timer_holdtime
  split_ifs <;> rfl

/-- start_timer_holdtime leaves the hold-time field unchanged. -/
lemma start_timer_holdtime_holdtime (p : Peer) :
    (start_timer_holdtime p).holdtime = p.holdtime := by
  unfold start_timer_holdtime
  split_ifs <;> rfl

/-- start_timer_holdtime arms the hold timer with the hold time, stopping
it when zero. -/
lemma start_timer_holdtime_hold (p : Peer) :
    (start_timer_holdtime p).timers.hold =
      (if 0 < p.holdtime then some p.holdtime else none) := by
  unfold start_timer_holdtime
  split_ifs <;> rfl

/-- start_timer_keepalive leaves the state unchanged. -/
lemma start_timer_keepalive_state (p : Peer) :
    (start_timer_keepalive p).state = p.state := by
  unfold start_timer_keepalive
  split_ifs <;> rfl

/-- start_timer_keepalive leaves the hold-time field unchanged. -/
lemma start_timer_keepalive_holdtime (p : Peer) :
    (start_timer_keepalive p).holdtime = p.holdtime := by
  unfold start_timer_keepalive
  split_ifs <;> rfl

/-- start_timer_keepalive leaves the hold timer unchanged. -/
lemma start_timer_keepalive_hold (p : Peer) :
    (start_timer_keepalive p).timers.hold = p.timers.hold := by
  unfold start_timer_keepalive
  split_ifs <;> rfl

/-- Every FSM step preserves the OpenSent hold-time invariant: a peer
found in OpenSent after the step has hold-time field and hold timer at the
initial 240 s. -/
lemma opensent_inv_preserved (g : GlobalConf) (mih : Nat) (p : Peer)
    (ev : FsmInput) (hInv : opensent_hold_inv p) :
    opensent_hold_inv (bgp_fsm g mih p ev).1 := by
  intro hs
  cases hst : p.state <;> cases ev <;>
    (try simp only [bgp_fsm, hst, change_state_state] at hs ⊢) <;>
    first
      | exact absurd hs (by decide)
      | exact hInv hst
      | ((refine ⟨?_, ?_⟩ <;>
          simp [change_state_openSent_holdtime, change_state_openSent_timers,
            session_open, start_timer_holdtime, INTERVAL_HOLD_INITIAL]) <;>
            done)
      | (simp_all [change_state_state, start_timer_holdtime_state,
          start_timer_keepalive_state, session_keepalive, session_open] <;>
            done)
      | ((split_ifs at hs <;>
          simp_all [parse_open_fail_state, change_state_state,
            start_timer_holdtime_state, start_timer_keepalive_state]) <;>
            done)

/-- Every FSM step preserves the OpenConfirm hold-timer invariant: the
hold timer stays armed at the initial 240 s until the first KEEPALIVE. -/
lemma openconfirm_inv_preserved (g : GlobalConf) (mih : Nat) (p : Peer)
    (ev : FsmInput) (hInv1 : opensent_hold_inv p)
    (hInv2 : openconfirm_hold_inv p) :
    openconfirm_hold_inv (bgp_fsm g mih p ev).1 := by
  intro hs
  cases hst : p.state <;> cases ev <;>
    (try simp only [bgp_fsm, hst, change_state_state] at hs ⊢) <;>
    first
      | exact absurd hs (by decide)
      | exact hInv2 hst
      | (simp only [session_keepalive, start_timer_keepalive_hold]
         exact hInv2 hst)
      | (simp_all [change_state_state, start_timer_holdtime_state,
          start_timer_keepalive_state, session_keepalive, session_open,
          start_timer_keepalive_hold] <;>
            done)
      | ((split_ifs at hs <;>
          simp_all [parse_open_fail_state, change_state_state,
            start_timer_holdtime_state, start_timer_keepalive_state]) <;>
            done)
      | skip
  all_goals
    rename_i m
    by_cases hr : (parse_open g mih p m).2.2 ≠ 0
    · simp only [if_pos hr] at hs
      rw [parse_open_fail_state _ _ _ _ hr] at hs
      exact absurd hs (by decide)
    · have hf := parse_open_success g mih p m (not_ne_iff.mp hr)
      simp only [if_neg hr]
      rw [change_state_openConfirm_timers]
      simp only [session_keepalive]
      rw [start_timer_keepalive_hold, hf.2.1]
      exact (hInv1 hst).2

/-- The negotiated hold time is stored at RcvdOpen, but the hold timer is
not re-armed there. -/
lemma rcvd_open_negotiates (g : GlobalConf) (mih : Nat) (p : Peer)
    (m : OpenMsg) (hst : p.state = SessionState.openSent)
    (hok : (bgp_fsm g mih p (FsmInput.rcvdOpen m)).1.state =
      SessionState.openConfirm) :
    (bgp_fsm g mih p (FsmInput.rcvdOpen m)).1.holdtime =
      min m.holdtime
        (if p.conf.holdtime ≠ 0 then p.conf.holdtime else g.holdtime) ∧
    (bgp_fsm g mih p (FsmInput.rcvdOpen m)).1.timers.hold =
      p.timers.hold := by
  simp only [bgp_fsm, hst] at hok ⊢
  by_cases hr : (parse_open g mih p m).2.2 ≠ 0
  · simp only [if_pos hr] at hok
    rw [parse_open_fail_state _ _ _ _ hr] at hok
    exact absurd hok (by decide)
  · have hf := parse_open_success g mih p m (not_ne_iff.mp hr)
    simp only [if_neg hr]
    constructor
    · rw [change_state_openConfirm_holdtime]
      simp only [session_keepalive]
      rw [start_timer_keepalive_holdtime, hf.2.2]
    · rw [change_state_openConfirm_timers]
      simp only [session_keepalive]
      rw [start_timer_keepalive_hold, hf.2.1]

/-- The first KEEPALIVE in OpenConfirm arms the hold timer with the
negotiated hold time and enters Established. -/
lemma rcvd_keepalive_arms (g : GlobalConf) (mih : Nat) (p : Peer)
    (hst : p.state = SessionState.openConfirm) :
    (bgp_fsm g mih p FsmInput.rcvdKeepalive).1.state =
      SessionState.established ∧
    (bgp_fsm g mih p FsmInput.rcvdKeepalive).1.timers.hold =
      (if 0 < p.holdtime then some p.holdtime else none) := by
  simp only [bgp_fsm, hst]
  exact ⟨change_state_state _ _ _ _,
    by rw [change_state_established_hold, start_timer_holdtime_hold]⟩

/-- C4: a peer transitions into OpenSent only with its hold time set to
the initial value INTERVAL_HOLD_INITIAL = 240 s and the hold timer armed
with it (an invariant preserved by every FSM step); the hold timer is
still armed at 240 s throughout OpenConfirm; a successful RcvdOpen stores
the negotiated hold time (the minimum of the offered and our configured
hold time) without touching the armed hold timer; and only the first
KEEPALIVE from the peer (in OpenConfirm, moving to Established) arms the
hold timer with the negotiated value. -/
theorem c4_holdtime_discipline :
    (∀ (g : GlobalConf) (mih : Nat) (p : Peer) (ev : FsmInput),
      opensent_hold_inv p → opensent_hold_inv (bgp_fsm g mih p ev).1) ∧
    (∀ (g : GlobalConf) (mih : Nat) (p : Peer) (ev : FsmInput),
      opensent_hold_inv p → openconfirm_hold_inv p →
      openconfirm_hold_inv (bgp_fsm g mih p ev).1) ∧
    (∀ (g : GlobalConf) (mih : Nat) (p : Peer) (m : OpenMsg),
      p.state = SessionState.openSent →
      (bgp_fsm g mih p (FsmInput.rcvdOpen m)).1.state =
        SessionState.openConfirm →
      (bgp_fsm g mih p (FsmInput.rcvdOpen m)).1.holdtime =
        min m.holdtime
          (if p.conf.holdtime ≠ 0 then p.conf.holdtime else g.holdtime) ∧
      (bgp_fsm g mih p (FsmInput.rcvdOpen m)).1.timers.hold =
        p.timers.hold) ∧
    (∀ (g : GlobalConf) (mih : Nat) (p : Peer),
      p.state = SessionState.openConfirm →
      (bgp_fsm g mih p FsmInput.rcvdKeepalive).1.state =
        SessionState.established ∧
      (bgp_fsm g mih p FsmInput.rcvdKeepalive).1.timers.hold =
        (if 0 < p.holdtime then some p.holdtime else none)) :=
  ⟨opensent_inv_preserved, openconfirm_inv_preserved, rcvd_open_negotiates,
   rcvd_keepalive_arms⟩

/-- Witness for c4_holdtime_discipline: a successful OPEN from the sample
peer negotiates hold time min(90, 90) = 90 while the hold timer stays at
240; the following first KEEPALIVE enters Established with the hold timer
armed at 90. -/
theorem c4_holdtime_discipline_witness :
    (bgp_fsm sampleGlobal 3600 samplePeer
      (FsmInput.rcvdOpen { c7Msg with version := 4 })).1.holdtime = 90 ∧
    (bgp_fsm sampleGlobal 3600 samplePeer
      (FsmInput.rcvdOpen { c7Msg with version := 4 })).1.timers.hold =
      some 240 ∧
    (bgp_fsm sampleGlobal 3600
      { samplePeer with state := SessionState.openConfirm, holdtime := 90 }
      FsmInput.rcvdKeepalive).1.state = SessionState.established ∧
    (bgp_fsm sampleGlobal 3600
      { samplePeer with state := SessionState.openConfirm, holdtime := 90 }
      FsmInput.rcvdKeepalive).1.timers.hold = some 90 := by
  have h3 := c4_holdtime_discipline.2.2.1 sampleGlobal 3600 samplePeer
    { c7Msg with version := 4 } rfl (by decide)
  have h4 := c4_holdtime_discipline.2.2.2 sampleGlobal 3600
    { samplePeer with state := SessionState.openConfirm, holdtime := 90 } rfl
  refine ⟨?_, ?_, h4.1, ?_⟩
  · rw [h3.1]
    decide
  · rw [h3.2]
    decide
  · rw [h4.2]
    decide

end BgpdSession
